import Mathlib

/-!
Verification of the plotez core: style-parameter objects (`LinePlot`,
`ScatterPlot`, `ErrorPlot`), dictionary splitting, dual-axes request
validation and label management, the dual-axes call ordering, the
two-subplot orientation switch, and the n-plotter grid style fan-out.

The definitions are a shallow embedding of
`src/plotez/backend/utilities.py` and `src/plotez/plotez.py`.
Python attribute values are modelled by the inductive type `PyVal`
(integers stand in for all numbers; booleans do not occur as style
values).  A Python attribute that may be `None` is an `Option PyVal`.
-/


/-- A Python value as it occurs in plot-style fields: a number, a string,
a list, or a tuple.  `none` at the `Option PyVal` level models Python's
`None`. -/
inductive PyVal where
  | pyInt : Int → PyVal
  | pyStr : String → PyVal
  | pyList : List PyVal → PyVal
  | pyTuple : List PyVal → PyVal

instance : Inhabited PyVal := ⟨PyVal.pyInt 0⟩

mutual

def PyVal.decEq : (a b : PyVal) → Decidable (a = b)
  | .pyInt a, .pyInt b =>
      if h : a = b then isTrue (by rw [h]) else isFalse (by intro hh; cases hh; exact h rfl)
  | .pyStr a, .pyStr b =>
      if h : a = b then isTrue (by rw [h]) else isFalse (by intro hh; cases hh; exact h rfl)
  | .pyList a, .pyList b =>
      match PyVal.decEqList a b with
      | isTrue h => isTrue (by rw [h])
      | isFalse h => isFalse (by intro hh; cases hh; exact h rfl)
  | .pyTuple a, .pyTuple b =>
      match PyVal.decEqList a b with
      | isTrue h => isTrue (by rw [h])
      | isFalse h => isFalse (by intro hh; cases hh; exact h rfl)
  | .pyInt _, .pyStr _ => isFalse (fun h => PyVal.noConfusion h)
  | .pyInt _, .pyList _ => isFalse (fun h => PyVal.noConfusion h)
  | .pyInt _, .pyTuple _ => isFalse (fun h => PyVal.noConfusion h)
  | .pyStr _, .pyInt _ => isFalse (fun h => PyVal.noConfusion h)
  | .pyStr _, .pyList _ => isFalse (fun h => PyVal.noConfusion h)
  | .pyStr _, .pyTuple _ => isFalse (fun h => PyVal.noConfusion h)
  | .pyList _, .pyInt _ => isFalse (fun h => PyVal.noConfusion h)
  | .pyList _, .pyStr _ => isFalse (fun h => PyVal.noConfusion h)
  | .pyList _, .pyTuple _ => isFalse (fun h => PyVal.noConfusion h)
  | .pyTuple _, .pyInt _ => isFalse (fun h => PyVal.noConfusion h)
  | .pyTuple _, .pyStr _ => isFalse (fun h => PyVal.noConfusion h)
  | .pyTuple _, .pyList _ => isFalse (fun h => PyVal.noConfusion h)

def PyVal.decEqList : (a b : List PyVal) → Decidable (a = b)
  | [], [] => isTrue rfl
  | [], _ :: _ => isFalse (fun h => List.noConfusion h)
  | _ :: _, [] => isFalse (fun h => List.noConfusion h)
  | x :: xs, y :: ys =>
      match PyVal.decEq x y, PyVal.decEqList xs ys with
      | isTrue h1, isTrue h2 => isTrue (by rw [h1, h2])
      | isFalse h1, _ => isFalse (by intro h; cases h; exact h1 rfl)
      | isTrue _, isFalse h2 => isFalse (by intro h; cases h; exact h2 rfl)

end


instance : DecidableEq PyVal := PyVal.decEq

/-- Python `len(v)`: defined for lists, tuples and strings, a `TypeError`
for numbers. -/
def pyLen : PyVal → Except String Nat
  | .pyList l => .ok l.length
  | .pyTuple l => .ok l.length
  | .pyStr s => .ok s.length
  | .pyInt _ => .error "TypeError: object of type 'int' has no len()"

/-- Python `v[i]` for a natural index `i`: element of a list/tuple, a
one-character string for a string, a `TypeError` for numbers,
an `IndexError` past the end. -/
def pyIndex : PyVal → Nat → Except String PyVal
  | .pyList l, i =>
      if h : i < l.length then .ok (l.get ⟨i, h⟩) else .error "IndexError: list index out of range"
  | .pyTuple l, i =>
      if h : i < l.length then .ok (l.get ⟨i, h⟩) else .error "IndexError: tuple index out of range"
  | .pyStr s, i =>
      if h : i < s.data.length then .ok (.pyStr (String.mk [s.data.get ⟨i, h⟩]))
      else .error "IndexError: string index out of range"
  | .pyInt _, _ => .error "TypeError: 'int' object is not subscriptable"

/-- Python `v[:2]`: the first (at most) two items of a list/tuple/string;
a `TypeError` for numbers. -/
def pySlice2 : PyVal → Except String PyVal
  | .pyList l => .ok (.pyList (l.take 2))
  | .pyTuple l => .ok (.pyTuple (l.take 2))
  | .pyStr s => .ok (.pyStr (String.mk (s.data.take 2)))
  | .pyInt _ => .error "TypeError: 'int' object is not subscriptable"

/-- Python two-target unpacking `a, b = v`: succeeds exactly when `v` is
an iterable of exactly two items. -/
def pyUnpack2 : PyVal → Except String (PyVal × PyVal)
  | .pyList [a, b] => .ok (a, b)
  | .pyList _ => .error "ValueError: unpacking expected exactly 2 values"
  | .pyTuple [a, b] => .ok (a, b)
  | .pyTuple _ => .error "ValueError: unpacking expected exactly 2 values"
  | .pyStr s =>
      match s.data with
      | [a, b] => .ok (.pyStr (String.mk [a]), .pyStr (String.mk [b]))
      | _ => .error "ValueError: unpacking expected exactly 2 values"
  | .pyInt _ => .error "TypeError: cannot unpack non-iterable int object"

/-- Python truthiness of a `PyVal`: `0`, `""`, `[]` and `()` are falsy. -/
def pyTruthy : PyVal → Bool
  | .pyInt n => n != 0
  | .pyStr s => s != ""
  | .pyList l => !l.isEmpty
  | .pyTuple l => !l.isEmpty

/-- Python `x or d` for an optional value `x`: `d` when `x` is `None` or
falsy, otherwise `x` itself. -/
def pyOr (x : Option PyVal) (d : PyVal) : PyVal :=
  match x with
  | some v => if pyTruthy v then v else d
  | none => d

/-- Matplotlib's default `axes.prop_cycle` colors (the source reads them
from `rcParams`; these are matplotlib's shipped defaults). -/
def propCycleColors : List String :=
  ["#1f77b4", "#ff7f0e", "#2ca02c", "#d62728", "#9467bd",
   "#8c564b", "#e377c2", "#7f7f7f", "#bcbd22", "#17becf"]

/-- `get_color()`: the default color cycle repeated 10 times
(`rcParams["axes.prop_cycle"].by_key()["color"] * 10`). -/
def get_color : PyVal :=
  .pyList (((List.replicate 10 propCycleColors).flatten).map .pyStr)

/-- One entry of a non-`None` parameter dictionary: `[(label, v)]` when
the attribute is set, `[]` when it is `None`.  `get_dict` in the source
iterates the zipped labels/parameters and keeps the non-`None` ones;
its result is the concatenation of these per-field chunks. -/
def optChunk (label : String) (v : Option PyVal) : List (String × PyVal) :=
  match v with
  | some x => [(label, x)]
  | none => []

/-! ## LinePlot -/

/-- `LINE_ATTRS`: short alias → canonical attribute name for line plots. -/
def LINE_ATTRS : List (String × String) :=
  [("ls", "line_style"), ("lw", "line_width"), ("color", "color"), ("alpha", "alpha"),
   ("marker", "marker"), ("ms", "marker_size"), ("mec", "marker_edge_color"),
   ("mfc", "marker_face_color"), ("mew", "marker_edge_width")]

/-- `LINE_ATTRS.get(key, key)`: resolve a populate key through the alias
table, unknown keys passing through unchanged. -/
def resolveLineKey (k : String) : String :=
  (LINE_ATTRS.lookup k).getD k

/-- The nine optional style attributes of a `LinePlot` instance. -/
structure LinePlot where
  line_style : Option PyVal
  line_width : Option PyVal
  color : Option PyVal
  alpha : Option PyVal
  marker : Option PyVal
  marker_size : Option PyVal
  marker_edge_color : Option PyVal
  marker_face_color : Option PyVal
  marker_edge_width : Option PyVal
deriving DecidableEq

/-- `LinePlot.__init__`: stores each argument, then
`self.color = color or get_color()` (Python `or`, so a falsy color is
replaced by the palette as well). -/
def LinePlot.new (line_style line_width color alpha marker marker_size
    marker_edge_color marker_face_color marker_edge_width : Option PyVal) : LinePlot :=
  { line_style := line_style
    line_width := line_width
    color := some (pyOr color get_color)
    alpha := alpha
    marker := marker
    marker_size := marker_size
    marker_edge_color := marker_edge_color
    marker_face_color := marker_face_color
    marker_edge_width := marker_edge_width }

/-- `LinePlot()`: the all-default instance used by `populate`. -/
def LinePlot.init : LinePlot :=
  LinePlot.new none none none none none none none none none

/-- `_all_labels` for `LinePlot`. -/
def LinePlot.all_labels : List String :=
  ["ls", "lw", "color", "alpha", "marker", "ms", "mec", "mfc", "mew"]

/-- `_all_parameters` for `LinePlot`. -/
def LinePlot.all_parameters (p : LinePlot) : List (Option PyVal) :=
  [p.line_style, p.line_width, p.color, p.alpha, p.marker,
   p.marker_size, p.marker_edge_color, p.marker_face_color, p.marker_edge_width]

/-- `to_dict`: label ↦ parameter for every field, `None` entries
included.  The dictionary's insertion order is the fixed label order, so
it is modelled as an association list. -/
def LinePlot.to_dict (p : LinePlot) : List (String × Option PyVal) :=
  List.zip LinePlot.all_labels p.all_parameters

/-- `get_dict`: label ↦ parameter for the non-`None` fields only, in
label order. -/
def LinePlot.get_dict (p : LinePlot) : List (String × PyVal) :=
  optChunk "ls" p.line_style ++ optChunk "lw" p.line_width ++ optChunk "color" p.color ++
  optChunk "alpha" p.alpha ++ optChunk "marker" p.marker ++ optChunk "ms" p.marker_size ++
  optChunk "mec" p.marker_edge_color ++ optChunk "mfc" p.marker_face_color ++
  optChunk "mew" p.marker_edge_width

/-- `setattr(instance, attr_name, value)` restricted to the canonical
attribute names; any other name would create an attribute that none of
`to_dict`/`get_dict` ever reads, so it is modelled as a no-op. -/
def LinePlot.setattr (p : LinePlot) (attr : String) (v : PyVal) : LinePlot :=
  if attr = "line_style" then { p with line_style := some v }
  else if attr = "line_width" then { p with line_width := some v }
  else if attr = "color" then { p with color := some v }
  else if attr = "alpha" then { p with alpha := some v }
  else if attr = "marker" then { p with marker := some v }
  else if attr = "marker_size" then { p with marker_size := some v }
  else if attr = "marker_edge_color" then { p with marker_edge_color := some v }
  else if attr = "marker_face_color" then { p with marker_face_color := some v }
  else if attr = "marker_edge_width" then { p with marker_edge_width := some v }
  else p

/-- `LinePlot.populate`: start from `cls()` and assign each mapping
entry through the alias table, later entries winning. -/
def LinePlot.populate (d : List (String × PyVal)) : LinePlot :=
  d.foldl (fun inst kv => inst.setattr (resolveLineKey kv.1) kv.2) LinePlot.init

/-- `__eq__` on two `LinePlot`s: equality of their `to_dict` outputs
(`isinstance` of the same class holds by construction in the model). -/
def LinePlot.eqPy (p q : LinePlot) : Prop :=
  p.to_dict = q.to_dict

instance (p q : LinePlot) : Decidable (p.eqPy q) := by
  unfold LinePlot.eqPy; infer_instance

/-! ## ScatterPlot -/

/-- `SCATTER_ATTRS`: short alias → canonical attribute name for scatter
plots. -/
def SCATTER_ATTRS : List (String × String) :=
  [("c", "color"), ("alpha", "alpha"), ("marker", "marker"), ("s", "size"),
   ("cmap", "cmap"), ("fc", "face_color")]

/-- `SCATTER_ATTRS.get(key, key)`. -/
def resolveScatterKey (k : String) : String :=
  (SCATTER_ATTRS.lookup k).getD k

/-- The six optional style attributes of a `ScatterPlot` instance. -/
structure ScatterPlot where
  color : Option PyVal
  alpha : Option PyVal
  marker : Option PyVal
  size : Option PyVal
  cmap : Option PyVal
  face_color : Option PyVal
deriving DecidableEq

/-- `ScatterPlot.__init__`: stores the arguments; afterwards
`if self.color is None: self.color = color or get_color()`, so only a
genuinely-`None` color is replaced by the palette (unlike `LinePlot`,
where a falsy color is replaced too). -/
def ScatterPlot.new (color alpha marker size cmap face_color : Option PyVal) : ScatterPlot :=
  { color := match color with
      | none => some get_color
      | some c => some c
    alpha := alpha
    marker := marker
    size := size
    cmap := cmap
    face_color := face_color }

/-- `ScatterPlot()`: the all-default instance used by `populate`. -/
def ScatterPlot.init : ScatterPlot :=
  ScatterPlot.new none none none none none none

/-- `_all_labels` for `ScatterPlot`. -/
def ScatterPlot.all_labels : List String :=
  ["c", "alpha", "marker", "s", "cmap", "fc"]

/-- `_all_parameters` for `ScatterPlot`. -/
def ScatterPlot.all_parameters (p : ScatterPlot) : List (Option PyVal) :=
  [p.color, p.alpha, p.marker, p.size, p.cmap, p.face_color]

/-- `to_dict` for `ScatterPlot`: label ↦ parameter, `None` included. -/
def ScatterPlot.to_dict (p : ScatterPlot) : List (String × Option PyVal) :=
  List.zip ScatterPlot.all_labels p.all_parameters

/-- `get_dict` for `ScatterPlot`: the non-`None` fields, in label
order. -/
def ScatterPlot.get_dict (p : ScatterPlot) : List (String × PyVal) :=
  optChunk "c" p.color ++ optChunk "alpha" p.alpha ++ optChunk "marker" p.marker ++
  optChunk "s" p.size ++ optChunk "cmap" p.cmap ++ optChunk "fc" p.face_color

/-- `setattr` on a `ScatterPlot`, restricted to its canonical attribute
names (other names create attributes never read back). -/
def ScatterPlot.setattr (p : ScatterPlot) (attr : String) (v : PyVal) : ScatterPlot :=
  if attr = "color" then { p with color := some v }
  else if attr = "alpha" then { p with alpha := some v }
  else if attr = "marker" then { p with marker := some v }
  else if attr = "size" then { p with size := some v }
  else if attr = "cmap" then { p with cmap := some v }
  else if attr = "face_color" then { p with face_color := some v }
  else p

/-- `ScatterPlot.populate`. -/
def ScatterPlot.populate (d : List (String × PyVal)) : ScatterPlot :=
  d.foldl (fun inst kv => inst.setattr (resolveScatterKey kv.1) kv.2) ScatterPlot.init

/-- `__eq__` on two `ScatterPlot`s. -/
def ScatterPlot.eqPy (p q : ScatterPlot) : Prop :=
  p.to_dict = q.to_dict

instance (p q : ScatterPlot) : Decidable (p.eqPy q) := by
  unfold ScatterPlot.eqPy; infer_instance

/-! ## ErrorPlot -/

/-- The alias table used inside `ErrorPlot.populate`:
`LINE_ATTRS | {"capsize": "capsize", "elinewidth": "elinewidth",
"ecolor": "ecolor", "capthick": "capthick"}`. -/
def ERROR_ATTRS : List (String × String) :=
  LINE_ATTRS ++
  [("capsize", "capsize"), ("elinewidth", "elinewidth"),
   ("ecolor", "ecolor"), ("capthick", "capthick")]

/-- `ERROR_ATTRS.get(key, key)`. -/
def resolveErrorKey (k : String) : String :=
  (ERROR_ATTRS.lookup k).getD k

/-- The thirteen optional style attributes of an `ErrorPlot` instance:
the nine `LinePlot` attributes plus the four error-bar ones. -/
structure ErrorPlot where
  line_style : Option PyVal
  line_width : Option PyVal
  color : Option PyVal
  alpha : Option PyVal
  marker : Option PyVal
  marker_size : Option PyVal
  marker_edge_color : Option PyVal
  marker_face_color : Option PyVal
  marker_edge_width : Option PyVal
  capsize : Option PyVal
  elinewidth : Option PyVal
  ecolor : Option PyVal
  capthick : Option PyVal
deriving DecidableEq

/-- `ErrorPlot.__init__`: delegates the nine line attributes to
`LinePlot.__init__` (including `color or get_color()`), then stores the
four error-bar attributes. -/
def ErrorPlot.new (line_style line_width color capsize alpha marker marker_size
    marker_edge_color marker_face_color marker_edge_width elinewidth ecolor capthick :
    Option PyVal) : ErrorPlot :=
  { line_style := line_style
    line_width := line_width
    color := some (pyOr color get_color)
    alpha := alpha
    marker := marker
    marker_size := marker_size
    marker_edge_color := marker_edge_color
    marker_face_color := marker_face_color
    marker_edge_width := marker_edge_width
    capsize := capsize
    elinewidth := elinewidth
    ecolor := ecolor
    capthick := capthick }

/-- `ErrorPlot()`: the all-default instance used by `populate`. -/
def ErrorPlot.init : ErrorPlot :=
  ErrorPlot.new none none none none none none none none none none none none none

/-- `_all_labels` for `ErrorPlot`: the `LinePlot` labels extended by the
error-bar labels. -/
def ErrorPlot.all_labels : List String :=
  LinePlot.all_labels ++ ["capsize", "elinewidth", "ecolor", "capthick"]

/-- `_all_parameters` for `ErrorPlot`. -/
def ErrorPlot.all_parameters (p : ErrorPlot) : List (Option PyVal) :=
  [p.line_style, p.line_width, p.color, p.alpha, p.marker,
   p.marker_size, p.marker_edge_color, p.marker_face_color, p.marker_edge_width] ++
  [p.capsize, p.elinewidth, p.ecolor, p.capthick]

/-- `to_dict` for `ErrorPlot`. -/
def ErrorPlot.to_dict (p : ErrorPlot) : List (String × Option PyVal) :=
  List.zip ErrorPlot.all_labels p.all_parameters

/-- `get_dict` for `ErrorPlot`: the non-`None` fields, in label order. -/
def ErrorPlot.get_dict (p : ErrorPlot) : List (String × PyVal) :=
  optChunk "ls" p.line_style ++ optChunk "lw" p.line_width ++ optChunk "color" p.color ++
  optChunk "alpha" p.alpha ++ optChunk "marker" p.marker ++ optChunk "ms" p.marker_size ++
  optChunk "mec" p.marker_edge_color ++ optChunk "mfc" p.marker_face_color ++
  optChunk "mew" p.marker_edge_width ++ optChunk "capsize" p.capsize ++
  optChunk "elinewidth" p.elinewidth ++ optChunk "ecolor" p.ecolor ++
  optChunk "capthick" p.capthick

/-- `setattr` on an `ErrorPlot`, restricted to its canonical attribute
names. -/
def ErrorPlot.setattr (p : ErrorPlot) (attr : String) (v : PyVal) : ErrorPlot :=
  if attr = "line_style" then { p with line_style := some v }
  else if attr = "line_width" then { p with line_width := some v }
  else if attr = "color" then { p with color := some v }
  else if attr = "alpha" then { p with alpha := some v }
  else if attr = "marker" then { p with marker := some v }
  else if attr = "marker_size" then { p with marker_size := some v }
  else if attr = "marker_edge_color" then { p with marker_edge_color := some v }
  else if attr = "marker_face_color" then { p with marker_face_color := some v }
  else if attr = "marker_edge_width" then { p with marker_edge_width := some v }
  else if attr = "capsize" then { p with capsize := some v }
  else if attr = "elinewidth" then { p with elinewidth := some v }
  else if attr = "ecolor" then { p with ecolor := some v }
  else if attr = "capthick" then { p with capthick := some v }
  else p

/-- `ErrorPlot.populate`. -/
def ErrorPlot.populate (d : List (String × PyVal)) : ErrorPlot :=
  d.foldl (fun inst kv => inst.setattr (resolveErrorKey kv.1) kv.2) ErrorPlot.init

/-- `__eq__` on two `ErrorPlot`s. -/
def ErrorPlot.eqPy (p q : ErrorPlot) : Prop :=
  p.to_dict = q.to_dict

instance (p q : ErrorPlot) : Decidable (p.eqPy q) := by
  unfold ErrorPlot.eqPy; infer_instance

/-! ## Hash contents (`__hash__`) -/

/-- The list→tuple conversion `__hash__` applies to each `to_dict` value
before hashing (`if isinstance(value, list): value = tuple(value)`). -/
def hashVal : Option PyVal → Option PyVal
  | some (.pyList l) => some (.pyTuple l)
  | v => v

/-- Insert one `(key, value)` pair into a key-sorted list (ascending,
as Python's `sorted` orders the distinct keys). -/
def insertPair (kv : String × Option PyVal) : List (String × Option PyVal) → List (String × Option PyVal)
  | [] => [kv]
  | h :: t => if kv.1 ≤ h.1 then kv :: h :: t else h :: insertPair kv t

/-- `sorted(self.to_dict().items())`: sort the pairs by key. -/
def sortPairs (l : List (String × Option PyVal)) : List (String × Option PyVal) :=
  l.foldr insertPair []

/-- The tuple that `LinePlot.__hash__` hands to Python's `hash`: the
key-sorted `to_dict` items with list values converted to tuples.  Two
instances hash identically exactly when these contents coincide (the
final `hash` call is a fixed function of this tuple). -/
def LinePlot.hashContent (p : LinePlot) : List (String × Option PyVal) :=
  (sortPairs p.to_dict).map (fun kv => (kv.1, hashVal kv.2))

/-- The tuple that `ScatterPlot.__hash__` hands to Python's `hash`. -/
def ScatterPlot.hashContent (p : ScatterPlot) : List (String × Option PyVal) :=
  (sortPairs p.to_dict).map (fun kv => (kv.1, hashVal kv.2))

/-- The tuple that `ErrorPlot.__hash__` hands to Python's `hash`. -/
def ErrorPlot.hashContent (p : ErrorPlot) : List (String × Option PyVal) :=
  (sortPairs p.to_dict).map (fun kv => (kv.1, hashVal kv.2))

/-! ## split_dictionary -/

/-- The loop body of `split_dictionary`: for each parameter,
`params_instance1[k], params_instance2[k] = values[:2]` — slice to the
first two items, then unpack exactly two.  The first failing parameter
aborts the whole call with its Python error. -/
def splitPairs : List (String × PyVal) →
    Except String (List (String × PyVal) × List (String × PyVal))
  | [] => .ok ([], [])
  | (k, v) :: rest => do
      let s ← pySlice2 v
      let (a, b) ← pyUnpack2 s
      let (r1, r2) ← splitPairs rest
      .ok ((k, a) :: r1, (k, b) :: r2)

/-- `split_dictionary` on a `LinePlot`: split `get_dict` into two
mappings and `populate` one instance from each. -/
def split_dictionary_line (p : LinePlot) : Except String (LinePlot × LinePlot) := do
  let (d1, d2) ← splitPairs p.get_dict
  .ok (LinePlot.populate d1, LinePlot.populate d2)

/-- `split_dictionary` on a `ScatterPlot`. -/
def split_dictionary_scatter (p : ScatterPlot) : Except String (ScatterPlot × ScatterPlot) := do
  let (d1, d2) ← splitPairs p.get_dict
  .ok (ScatterPlot.populate d1, ScatterPlot.populate d2)

/-- `split_dictionary` on an `ErrorPlot`. -/
def split_dictionary_error (p : ErrorPlot) : Except String (ErrorPlot × ErrorPlot) := do
  let (d1, d2) ← splitPairs p.get_dict
  .ok (ErrorPlot.populate d1, ErrorPlot.populate d2)

/-! ## Dual-axes validation and label management -/

/-- `dual_axes_data_validation`: the four checks, in source order, each
raising a `ValueError` with its own message.  Data series are modelled
as integer lists (only their lengths are inspected); axis labels may be
`None` entries (callers pass `[x_label, y_label, None]`). -/
def dual_axes_data_validation (x1_data : List Int) (x2_data : Option (List Int))
    (y1_data : List Int) (y2_data : Option (List Int)) (use_twin_x : Bool)
    (axis_labels : List (Option String)) : Except String Unit :=
  if axis_labels.length ≠ 3 then
    .error "The axis_labels should have a length of 3."
  else if x1_data.length = 0 ∨ y1_data.length = 0 then
    .error "Primary x or y data is empty. Please provide valid data."
  else if use_twin_x ∧ x2_data.isSome then
    .error "Dual Y-axis plot requested but 'x2_data' given."
  else if ¬use_twin_x ∧ y2_data.isSome then
    .error "Dual X-axis plot requested but 'y2_data' given."
  else
    .ok ()

/-- Python `x or d` for an optional string: the default replaces both
`None` and the falsy empty string. -/
def strOr (x : Option String) (d : String) : String :=
  match x with
  | some s => if s ≠ "" then s else d
  | none => d

/-- Python `xs or d` for an optional label list: the default replaces
both `None` and the falsy empty list. -/
def listOr (x : Option (List (Option String))) (d : List (Option String)) :
    List (Option String) :=
  match x with
  | some l => if l ≠ [] then l else d
  | none => d

/-- The five outputs of `dual_axes_label_management`. -/
structure LabelResult where
  x1y1 : Option String
  x1y2 : Option String
  x2y1 : Option String
  title : Option String
  axisLabels : List (Option String)
deriving DecidableEq

/-- `dual_axes_label_management`: fill unset labels with the mode's
defaults when `auto_label` is true (the untouched opposite-mode data
label is returned unchanged), or with empty strings when it is false.
`label or default` is Python truthiness, so a supplied empty string is
replaced exactly like `None`. -/
def dual_axes_label_management (x1y1_label x1y2_label x2y1_label : Option String)
    (auto_label : Bool) (axis_labels : Option (List (Option String)))
    (plot_title : Option String) (use_twin_x : Bool) : LabelResult :=
  let default_axis_labels : List (Option String) :=
    if use_twin_x then [some "X", some "Y1", some "Y2"] else [some "X1", some "Y", some "X2"]
  let default_data_labels : List String :=
    if use_twin_x then ["X1 vs Y1", "X1 vs Y2"] else ["Y vs X1", "Y vs X2"]
  let default_title := "Plot"
  if auto_label then
    { x1y1 := some (strOr x1y1_label default_data_labels[0]!)
      x1y2 := if use_twin_x then some (strOr x1y2_label default_data_labels[1]!) else x1y2_label
      x2y1 := if use_twin_x then x2y1_label else some (strOr x2y1_label default_data_labels[1]!)
      title := some (strOr plot_title default_title)
      axisLabels := listOr axis_labels default_axis_labels }
  else
    { x1y1 := some (strOr x1y1_label "")
      x1y2 := some (strOr x1y2_label "")
      x2y1 := some (strOr x2y1_label "")
      title := some (strOr plot_title "")
      axisLabels := listOr axis_labels [some "", some "", some ""] }

/-! ## plot_with_dual_axes call ordering -/

/-- The observable steps of one `plot_with_dual_axes` call that the
ordering property speaks about: the label-resolution call, the
validation call, and each drawing call issued to the axes (series 1 is
the primary `plot`/`scatter`, series 2 the twin-axis one). -/
inductive PlotEvent where
  | resolveLabels
  | validate
  | drawSeries : Nat → PlotEvent
deriving DecidableEq

/-- `dict1` construction (`value[0] if isinstance(value, list) else
value` per entry): only list values are indexed; an empty list raises
`IndexError`. -/
def evalDict1 : List (String × PyVal) → Except String (List (String × PyVal))
  | [] => .ok []
  | (k, v) :: rest => do
      let v1 ←
        match v with
        | .pyList l => pyIndex (.pyList l) 0
        | w => .ok w
      let r ← evalDict1 rest
      .ok ((k, v1) :: r)

/-- `dict2` construction (`value[1] if len(value) > 1 else value[0]` per
entry): `len` raises `TypeError` on non-sequences, then index 1 or 0. -/
def evalDict2 : List (String × PyVal) → Except String (List (String × PyVal))
  | [] => .ok []
  | (k, v) :: rest => do
      let n ← pyLen v
      let v2 ← if n > 1 then pyIndex v 1 else pyIndex v 0
      let r ← evalDict2 rest
      .ok ((k, v2) :: r)

/-- `plot_with_dual_axes`, reduced to the trace of `PlotEvent`s it emits
and the Python error (if any) that aborts it.  The source first calls
`dual_axes_label_management`, then `dual_axes_data_validation` on the
resolved axis labels, then builds `dict1` and draws the primary series,
then — depending on the mode and the optional secondary data — builds
`dict2` and draws the secondary series on a twin axis.  `plotItems` is
`plot_dictionary.get_dict()` (or `{}` when no style object was
passed); surface/legend/label cosmetic calls are not traced. -/
def plot_with_dual_axes (x1_data y1_data : List Int) (x2_data y2_data : Option (List Int))
    (x1y1_label x1y2_label x2y1_label : Option String) (use_twin_x auto_label : Bool)
    (axis_labels : Option (List (Option String))) (plot_title : Option String)
    (plotItems : List (String × PyVal)) : List PlotEvent × Option String :=
  match dual_axes_data_validation x1_data x2_data y1_data y2_data use_twin_x
      (dual_axes_label_management x1y1_label x1y2_label x2y1_label auto_label
        axis_labels plot_title use_twin_x).axisLabels with
  | .error e => ([.resolveLabels, .validate], some e)
  | .ok _ =>
    match evalDict1 plotItems with
    | .error e => ([.resolveLabels, .validate], some e)
    | .ok _ =>
      let base : List PlotEvent := [.resolveLabels, .validate, .drawSeries 1]
      if use_twin_x then
        match y2_data with
        | some _ =>
          match evalDict2 plotItems with
          | .error e => (base, some e)
          | .ok _ => (base ++ [.drawSeries 2], none)
        | none => (base, none)
      else
        match x2_data with
        | some _ =>
          match evalDict2 plotItems with
          | .error e => (base, some e)
          | .ok _ => (base ++ [.drawSeries 2], none)
        | none => (base, none)

/-- Event `a` occurs strictly before event `b` in a trace. -/
def occursBefore (a b : PlotEvent) (tr : List PlotEvent) : Prop :=
  a ∈ tr ∧ b ∈ tr ∧ tr.indexOf a < tr.indexOf b

instance (a b : PlotEvent) (tr : List PlotEvent) : Decidable (occursBefore a b tr) := by
  unfold occursBefore; infer_instance

/-! ## two_subplots and n_plotter -/

/-- The orientation switch of `two_subplots`: `"h"` selects one row of
two columns, `"v"` two rows of one column, anything else raises
`OrientationError`. -/
def two_subplots_layout (orientation : String) : Except String (Nat × Nat) :=
  if orientation = "h" then .ok (1, 2)
  else if orientation = "v" then .ok (2, 1)
  else .error "OrientationError: The orientation must be either 'h' or 'v'."

/-- One subplot's style mapping in `n_plotter`:
`{key: value[c % len(value)] for key, value in plot_items.items()}` for
subplot index `c`.  `len` raises `TypeError` on a non-sequence value,
and an empty sequence raises `ZeroDivisionError` from `c % 0`. -/
def n_plotter_main_dict : List (String × PyVal) → Nat →
    Except String (List (String × PyVal))
  | [], _ => .ok []
  | (k, v) :: rest, c => do
      let n ← pyLen v
      if n = 0 then
        .error "ZeroDivisionError: integer modulo by zero"
      else do
        let x ← pyIndex v (c % n)
        let r ← n_plotter_main_dict rest c
        .ok ((k, x) :: r)

/-- The resolved labels of one `n_plotter` call. -/
structure NPlotterLabels where
  xLabels : List (Option String)
  yLabels : List (Option String)
  dataLabels : List (Option String)
  plotTitle : Option String
  subplotTitle : List (Option String)
deriving DecidableEq

/-- The label block of `n_plotter` (source lines 526–540): with
`auto_label` true every label is overwritten with the templated values
(`rf"X$_{i + 1}$"`, `rf"Y$_{i + 1}$"`, `f"{i} vs {j}"`,
`f"Subplot {i}"`, `f"{n_cols * n_rows} Plotter"`); with it false, falsy
supplied labels are replaced by `None`-filled lists (or `None` for the
title). -/
def n_plotter_label_management (n_rows n_cols : Nat)
    (x_labels y_labels data_labels : Option (List (Option String)))
    (plot_title : Option String) (subplot_title : Option (List (Option String)))
    (auto_label : Bool) : NPlotterLabels :=
  let K := n_cols * n_rows
  if auto_label then
    let xs := (List.range K).map (fun i => "X$_" ++ toString (i + 1) ++ "$")
    let ys := (List.range K).map (fun i => "Y$_" ++ toString (i + 1) ++ "$")
    { xLabels := xs.map some
      yLabels := ys.map some
      dataLabels := (xs.zip ys).map (fun p => some (p.1 ++ " vs " ++ p.2))
      subplotTitle := (List.range K).map (fun i => some ("Subplot " ++ toString i))
      plotTitle := some (toString K ++ " Plotter") }
  else
    let empty_ : List (Option String) := (List.range K).map (fun _ => none)
    { xLabels := listOr x_labels empty_
      yLabels := listOr y_labels empty_
      dataLabels := listOr data_labels empty_
      subplotTitle := listOr subplot_title empty_
      plotTitle := match plot_title with
        | some t => if t ≠ "" then some t else none
        | none => none }

/-- The value the `populate` fold leaves in attribute `target` when it
starts from `init` and processes `d`: the last entry of `d` whose
resolved key is `target`, if any. -/
def assignLine (target : String) (d : List (String × PyVal)) (init : Option PyVal) : Option PyVal :=
  d.foldl (fun acc kv => if resolveLineKey kv.1 = target then some kv.2 else acc) init

/-- `assignLine` for the scatter alias table. -/
def assignScatter (target : String) (d : List (String × PyVal)) (init : Option PyVal) : Option PyVal :=
  d.foldl (fun acc kv => if resolveScatterKey kv.1 = target then some kv.2 else acc) init

/-- `assignLine` for the error-bar alias table. -/
def assignError (target : String) (d : List (String × PyVal)) (init : Option PyVal) : Option PyVal :=
  d.foldl (fun acc kv => if resolveErrorKey kv.1 = target then some kv.2 else acc) init

/-- First element of a two-or-more-element sequence value (junk
elsewhere). -/
def pairFst : PyVal → PyVal
  | .pyList (a :: _) => a
  | .pyTuple (a :: _) => a
  | v => v

/-- Second element of a two-or-more-element sequence value (junk
elsewhere). -/
def pairSnd : PyVal → PyVal
  | .pyList (_ :: b :: _) => b
  | .pyTuple (_ :: b :: _) => b
  | v => v

/-- `value[c % len(value)]` for a list value (junk on other values):
the cyclically reused style entry of subplot `c`. -/
def listCycle (v : PyVal) (c : Nat) : PyVal :=
  match v with
  | .pyList l => l.getD (c % l.length) default
  | w => w

/-! ## Concrete instances used by witnesses and counterexamples -/

/-- A fully-populated `LinePlot` (no absent field). -/
def lineAllSet : LinePlot :=
  LinePlot.new (some (.pyStr "-")) (some (.pyInt 2)) (some (.pyStr "red"))
    (some (.pyInt 1)) (some (.pyStr "o")) (some (.pyInt 5)) (some (.pyStr "k"))
    (some (.pyStr "w")) (some (.pyInt 1))

/-- A fully-populated `ScatterPlot`. -/
def scatterAllSet : ScatterPlot :=
  ScatterPlot.new (some (.pyStr "red")) (some (.pyInt 1)) (some (.pyStr "o"))
    (some (.pyInt 50)) (some (.pyStr "viridis")) (some (.pyStr "w"))

/-- A fully-populated `ErrorPlot`. -/
def errorAllSet : ErrorPlot :=
  ErrorPlot.new (some (.pyStr "-")) (some (.pyInt 2)) (some (.pyStr "red"))
    (some (.pyInt 4)) (some (.pyInt 1)) (some (.pyStr "o")) (some (.pyInt 5))
    (some (.pyStr "k")) (some (.pyStr "w")) (some (.pyInt 1)) (some (.pyInt 2))
    (some (.pyStr "gray")) (some (.pyInt 3))

/-- A `LinePlot` whose present fields are all two-element lists. -/
def linePairSet : LinePlot :=
  LinePlot.new (some (.pyList [.pyStr "-", .pyStr "--"]))
    (some (.pyList [.pyInt 1, .pyInt 2]))
    (some (.pyList [.pyStr "red", .pyStr "blue"])) none none none none none none

/-- A `LinePlot` with a scalar (non-sequence) style value next to a
paired one: `LinePlot(line_width=2, color=["red", "blue"])`. -/
def lineScalarSet : LinePlot :=
  LinePlot.new none (some (.pyInt 2)) (some (.pyList [.pyStr "red", .pyStr "blue"]))
    none none none none none none

/-- Whether a value is a list of at least two items (the shape
`values[:2]` followed by two-target unpacking accepts without error and
without truncating below two). -/
def isPair2 : PyVal → Bool
  | .pyList (_ :: _ :: _) => true
  | _ => false

/-- Whether a value is a number (a non-sequence scalar). -/
def isIntVal : PyVal → Bool
  | .pyInt _ => true
  | _ => false

/-- Whether a value is a non-empty list. -/
def isNonemptyList : PyVal → Bool
  | .pyList (_ :: _) => true
  | _ => false

/-- A `LinePlot` holding a list and a `LinePlot` holding the equal-content
tuple in the same field: unequal under `__eq__`, hash-identical. -/
def lineListVal : LinePlot :=
  LinePlot.new (some (.pyList [.pyInt 1, .pyInt 2])) none (some (.pyStr "red"))
    none none none none none none

/-- The tuple twin of `lineListVal`. -/
def lineTupleVal : LinePlot :=
  LinePlot.new (some (.pyTuple [.pyInt 1, .pyInt 2])) none (some (.pyStr "red"))
    none none none none none none

/-- A fully-set `LinePlot` built through the constructor. -/
def lineBuiltA : LinePlot :=
  LinePlot.new (some (.pyStr "-")) (some (.pyInt 2)) (some (.pyStr "red"))
    (some (.pyInt 1)) (some (.pyStr "o")) (some (.pyInt 5)) (some (.pyStr "k"))
    (some (.pyStr "w")) (some (.pyInt 3))

/-- The same canonical content as `lineBuiltA`, built through `populate`
with alias keys supplied in reverse order. -/
def lineBuiltB : LinePlot :=
  LinePlot.populate [("mew", .pyInt 3), ("mfc", .pyStr "w"), ("mec", .pyStr "k"),
    ("ms", .pyInt 5), ("marker", .pyStr "o"), ("alpha", .pyInt 1),
    ("color", .pyStr "red"), ("lw", .pyInt 2), ("ls", .pyStr "-")]

theorem foldl_optChunk (f : α → String × PyVal → α) (l : String) (v : Option PyVal) (init : α) :
    (optChunk l v).foldl f init = v.elim init (fun x => f init (l, x)) := by
  cases v <;> rfl

theorem map_optChunk (g : String × PyVal → String × PyVal) (l : String) (v : Option PyVal)
    (hg : ∀ k x, (g (k, x)).1 = k) :
    (optChunk l v).map g = optChunk l (v.map (fun x => (g (l, x)).2)) := by
  cases v with
  | none => rfl
  | some x =>
      simp only [optChunk, List.map, Option.map]
      have := hg l x
      cases hgx : g (l, x)
      simp_all

theorem optElim_const (v : Option α) (c : β) : v.elim c (fun _ => c) = c := by
  cases v <;> rfl

/-! ## Populate characterization machinery -/

theorem map_optChunk_snd (h : PyVal → PyVal) (l : String) (v : Option PyVal) :
    (optChunk l v).map (fun kv => (kv.1, h kv.2)) = optChunk l (v.map h) := by
  cases v <;> rfl

theorem optElim_none_some (v : Option α) : v.elim none some = v := by
  cases v <;> rfl

theorem optElim_some_init (v : Option α) (i : α) : v.elim (some i) some = some (v.getD i) := by
  cases v <;> rfl

theorem LinePlot.line_setget_line_style (p : LinePlot) (a : String) (v : PyVal) :
    (p.setattr a v).line_style = if a = "line_style" then some v else p.line_style := by
  by_cases h1 : a = "line_style"
  · subst h1; rfl
  by_cases h2 : a = "line_width"
  · subst h2; rfl
  by_cases h3 : a = "color"
  · subst h3; rfl
  by_cases h4 : a = "alpha"
  · subst h4; rfl
  by_cases h5 : a = "marker"
  · subst h5; rfl
  by_cases h6 : a = "marker_size"
  · subst h6; rfl
  by_cases h7 : a = "marker_edge_color"
  · subst h7; rfl
  by_cases h8 : a = "marker_face_color"
  · subst h8; rfl
  by_cases h9 : a = "marker_edge_width"
  · subst h9; rfl
  simp [LinePlot.setattr, h1, h2, h3, h4, h5, h6, h7, h8, h9]

theorem LinePlot.line_foldset_line_style (d : List (String × PyVal)) (inst : LinePlot) :
    (d.foldl (fun i kv => i.setattr (resolveLineKey kv.1) kv.2) inst).line_style =
      assignLine "line_style" d inst.line_style := by
  induction d generalizing inst with
  | nil => rfl
  | cons kv rest ih =>
      simp only [List.foldl_cons, ih, LinePlot.line_setget_line_style, assignLine]

theorem LinePlot.line_setget_line_width (p : LinePlot) (a : String) (v : PyVal) :
    (p.setattr a v).line_width = if a = "line_width" then some v else p.line_width := by
  by_cases h1 : a = "line_style"
  · subst h1; rfl
  by_cases h2 : a = "line_width"
  · subst h2; rfl
  by_cases h3 : a = "color"
  · subst h3; rfl
  by_cases h4 : a = "alpha"
  · subst h4; rfl
  by_cases h5 : a = "marker"
  · subst h5; rfl
  by_cases h6 : a = "marker_size"
  · subst h6; rfl
  by_cases h7 : a = "marker_edge_color"
  · subst h7; rfl
  by_cases h8 : a = "marker_face_color"
  · subst h8; rfl
  by_cases h9 : a = "marker_edge_width"
  · subst h9; rfl
  simp [LinePlot.setattr, h1, h2, h3, h4, h5, h6, h7, h8, h9]

theorem LinePlot.line_foldset_line_width (d : List (String × PyVal)) (inst : LinePlot) :
    (d.foldl (fun i kv => i.setattr (resolveLineKey kv.1) kv.2) inst).line_width =
      assignLine "line_width" d inst.line_width := by
  induction d generalizing inst with
  | nil => rfl
  | cons kv rest ih =>
      simp only [List.foldl_cons, ih, LinePlot.line_setget_line_width, assignLine]

theorem LinePlot.line_setget_color (p : LinePlot) (a : String) (v : PyVal) :
    (p.setattr a v).color = if a = "color" then some v else p.color := by
  by_cases h1 : a = "line_style"
  · subst h1; rfl
  by_cases h2 : a = "line_width"
  · subst h2; rfl
  by_cases h3 : a = "color"
  · subst h3; rfl
  by_cases h4 : a = "alpha"
  · subst h4; rfl
  by_cases h5 : a = "marker"
  · subst h5; rfl
  by_cases h6 : a = "marker_size"
  · subst h6; rfl
  by_cases h7 : a = "marker_edge_color"
  · subst h7; rfl
  by_cases h8 : a = "marker_face_color"
  · subst h8; rfl
  by_cases h9 : a = "marker_edge_width"
  · subst h9; rfl
  simp [LinePlot.setattr, h1, h2, h3, h4, h5, h6, h7, h8, h9]

theorem LinePlot.line_foldset_color (d : List (String × PyVal)) (inst : LinePlot) :
    (d.foldl (fun i kv => i.setattr (resolveLineKey kv.1) kv.2) inst).color =
      assignLine "color" d inst.color := by
  induction d generalizing inst with
  | nil => rfl
  | cons kv rest ih =>
      simp only [List.foldl_cons, ih, LinePlot.line_setget_color, assignLine]

theorem LinePlot.line_setget_alpha (p : LinePlot) (a : String) (v : PyVal) :
    (p.setattr a v).alpha = if a = "alpha" then some v else p.alpha := by
  by_cases h1 : a = "line_style"
  · subst h1; rfl
  by_cases h2 : a = "line_width"
  · subst h2; rfl
  by_cases h3 : a = "color"
  · subst h3; rfl
  by_cases h4 : a = "alpha"
  · subst h4; rfl
  by_cases h5 : a = "marker"
  · subst h5; rfl
  by_cases h6 : a = "marker_size"
  · subst h6; rfl
  by_cases h7 : a = "marker_edge_color"
  · subst h7; rfl
  by_cases h8 : a = "marker_face_color"
  · subst h8; rfl
  by_cases h9 : a = "marker_edge_width"
  · subst h9; rfl
  simp [LinePlot.setattr, h1, h2, h3, h4, h5, h6, h7, h8, h9]

theorem LinePlot.line_foldset_alpha (d : List (String × PyVal)) (inst : LinePlot) :
    (d.foldl (fun i kv => i.setattr (resolveLineKey kv.1) kv.2) inst).alpha =
      assignLine "alpha" d inst.alpha := by
  induction d generalizing inst with
  | nil => rfl
  | cons kv rest ih =>
      simp only [List.foldl_cons, ih, LinePlot.line_setget_alpha, assignLine]

theorem LinePlot.line_setget_marker (p : LinePlot) (a : String) (v : PyVal) :
    (p.setattr a v).marker = if a = "marker" then some v else p.marker := by
  by_cases h1 : a = "line_style"
  · subst h1; rfl
  by_cases h2 : a = "line_width"
  · subst h2; rfl
  by_cases h3 : a = "color"
  · subst h3; rfl
  by_cases h4 : a = "alpha"
  · subst h4; rfl
  by_cases h5 : a = "marker"
  · subst h5; rfl
  by_cases h6 : a = "marker_size"
  · subst h6; rfl
  by_cases h7 : a = "marker_edge_color"
  · subst h7; rfl
  by_cases h8 : a = "marker_face_color"
  · subst h8; rfl
  by_cases h9 : a = "marker_edge_width"
  · subst h9; rfl
  simp [LinePlot.setattr, h1, h2, h3, h4, h5, h6, h7, h8, h9]

theorem LinePlot.line_foldset_marker (d : List (String × PyVal)) (inst : LinePlot) :
    (d.foldl (fun i kv => i.setattr (resolveLineKey kv.1) kv.2) inst).marker =
      assignLine "marker" d inst.marker := by
  induction d generalizing inst with
  | nil => rfl
  | cons kv rest ih =>
      simp only [List.foldl_cons, ih, LinePlot.line_setget_marker, assignLine]

theorem LinePlot.line_setget_marker_size (p : LinePlot) (a : String) (v : PyVal) :
    (p.setattr a v).marker_size = if a = "marker_size" then some v else p.marker_size := by
  by_cases h1 : a = "line_style"
  · subst h1; rfl
  by_cases h2 : a = "line_width"
  · subst h2; rfl
  by_cases h3 : a = "color"
  · subst h3; rfl
  by_cases h4 : a = "alpha"
  · subst h4; rfl
  by_cases h5 : a = "marker"
  · subst h5; rfl
  by_cases h6 : a = "marker_size"
  · subst h6; rfl
  by_cases h7 : a = "marker_edge_color"
  · subst h7; rfl
  by_cases h8 : a = "marker_face_color"
  · subst h8; rfl
  by_cases h9 : a = "marker_edge_width"
  · subst h9; rfl
  simp [LinePlot.setattr, h1, h2, h3, h4, h5, h6, h7, h8, h9]

theorem LinePlot.line_foldset_marker_size (d : List (String × PyVal)) (inst : LinePlot) :
    (d.foldl (fun i kv => i.setattr (resolveLineKey kv.1) kv.2) inst).marker_size =
      assignLine "marker_size" d inst.marker_size := by
  induction d generalizing inst with
  | nil => rfl
  | cons kv rest ih =>
      simp only [List.foldl_cons, ih, LinePlot.line_setget_marker_size, assignLine]

theorem LinePlot.line_setget_marker_edge_color (p : LinePlot) (a : String) (v : PyVal) :
    (p.setattr a v).marker_edge_color = if a = "marker_edge_color" then some v else p.marker_edge_color := by
  by_cases h1 : a = "line_style"
  · subst h1; rfl
  by_cases h2 : a = "line_width"
  · subst h2; rfl
  by_cases h3 : a = "color"
  · subst h3; rfl
  by_cases h4 : a = "alpha"
  · subst h4; rfl
  by_cases h5 : a = "marker"
  · subst h5; rfl
  by_cases h6 : a = "marker_size"
  · subst h6; rfl
  by_cases h7 : a = "marker_edge_color"
  · subst h7; rfl
  by_cases h8 : a = "marker_face_color"
  · subst h8; rfl
  by_cases h9 : a = "marker_edge_width"
  · subst h9; rfl
  simp [LinePlot.setattr, h1, h2, h3, h4, h5, h6, h7, h8, h9]

theorem LinePlot.line_foldset_marker_edge_color (d : List (String × PyVal)) (inst : LinePlot) :
    (d.foldl (fun i kv => i.setattr (resolveLineKey kv.1) kv.2) inst).marker_edge_color =
      assignLine "marker_edge_color" d inst.marker_edge_color := by
  induction d generalizing inst with
  | nil => rfl
  | cons kv rest ih =>
      simp only [List.foldl_cons, ih, LinePlot.line_setget_marker_edge_color, assignLine]

theorem LinePlot.line_setget_marker_face_color (p : LinePlot) (a : String) (v : PyVal) :
    (p.setattr a v).marker_face_color = if a = "marker_face_color" then some v else p.marker_face_color := by
  by_cases h1 : a = "line_style"
  · subst h1; rfl
  by_cases h2 : a = "line_width"
  · subst h2; rfl
  by_cases h3 : a = "color"
  · subst h3; rfl
  by_cases h4 : a = "alpha"
  · subst h4; rfl
  by_cases h5 : a = "marker"
  · subst h5; rfl
  by_cases h6 : a = "marker_size"
  · subst h6; rfl
  by_cases h7 : a = "marker_edge_color"
  · subst h7; rfl
  by_cases h8 : a = "marker_face_color"
  · subst h8; rfl
  by_cases h9 : a = "marker_edge_width"
  · subst h9; rfl
  simp [LinePlot.setattr, h1, h2, h3, h4, h5, h6, h7, h8, h9]

theorem LinePlot.line_foldset_marker_face_color (d : List (String × PyVal)) (inst : LinePlot) :
    (d.foldl (fun i kv => i.setattr (resolveLineKey kv.1) kv.2) inst).marker_face_color =
      assignLine "marker_face_color" d inst.marker_face_color := by
  induction d generalizing inst with
  | nil => rfl
  | cons kv rest ih =>
      simp only [List.foldl_cons, ih, LinePlot.line_setget_marker_face_color, assignLine]

theorem LinePlot.line_setget_marker_edge_width (p : LinePlot) (a : String) (v : PyVal) :
    (p.setattr a v).marker_edge_width = if a = "marker_edge_width" then some v else p.marker_edge_width := by
  by_cases h1 : a = "line_style"
  · subst h1; rfl
  by_cases h2 : a = "line_width"
  · subst h2; rfl
  by_cases h3 : a = "color"
  · subst h3; rfl
  by_cases h4 : a = "alpha"
  · subst h4; rfl
  by_cases h5 : a = "marker"
  · subst h5; rfl
  by_cases h6 : a = "marker_size"
  · subst h6; rfl
  by_cases h7 : a = "marker_edge_color"
  · subst h7; rfl
  by_cases h8 : a = "marker_face_color"
  · subst h8; rfl
  by_cases h9 : a = "marker_edge_width"
  · subst h9; rfl
  simp [LinePlot.setattr, h1, h2, h3, h4, h5, h6, h7, h8, h9]

theorem LinePlot.line_foldset_marker_edge_width (d : List (String × PyVal)) (inst : LinePlot) :
    (d.foldl (fun i kv => i.setattr (resolveLineKey kv.1) kv.2) inst).marker_edge_width =
      assignLine "marker_edge_width" d inst.marker_edge_width := by
  induction d generalizing inst with
  | nil => rfl
  | cons kv rest ih =>
      simp only [List.foldl_cons, ih, LinePlot.line_setget_marker_edge_width, assignLine]

theorem ScatterPlot.scatter_setget_color (p : ScatterPlot) (a : String) (v : PyVal) :
    (p.setattr a v).color = if a = "color" then some v else p.color := by
  by_cases h1 : a = "color"
  · subst h1; rfl
  by_cases h2 : a = "alpha"
  · subst h2; rfl
  by_cases h3 : a = "marker"
  · subst h3; rfl
  by_cases h4 : a = "size"
  · subst h4; rfl
  by_cases h5 : a = "cmap"
  · subst h5; rfl
  by_cases h6 : a = "face_color"
  · subst h6; rfl
  simp [ScatterPlot.setattr, h1, h2, h3, h4, h5, h6]

theorem ScatterPlot.scatter_foldset_color (d : List (String × PyVal)) (inst : ScatterPlot) :
    (d.foldl (fun i kv => i.setattr (resolveScatterKey kv.1) kv.2) inst).color =
      assignScatter "color" d inst.color := by
  induction d generalizing inst with
  | nil => rfl
  | cons kv rest ih =>
      simp only [List.foldl_cons, ih, ScatterPlot.scatter_setget_color, assignScatter]

theorem ScatterPlot.scatter_setget_alpha (p : ScatterPlot) (a : String) (v : PyVal) :
    (p.setattr a v).alpha = if a = "alpha" then some v else p.alpha := by
  by_cases h1 : a = "color"
  · subst h1; rfl
  by_cases h2 : a = "alpha"
  · subst h2; rfl
  by_cases h3 : a = "marker"
  · subst h3; rfl
  by_cases h4 : a = "size"
  · subst h4; rfl
  by_cases h5 : a = "cmap"
  · subst h5; rfl
  by_cases h6 : a = "face_color"
  · subst h6; rfl
  simp [ScatterPlot.setattr, h1, h2, h3, h4, h5, h6]

theorem ScatterPlot.scatter_foldset_alpha (d : List (String × PyVal)) (inst : ScatterPlot) :
    (d.foldl (fun i kv => i.setattr (resolveScatterKey kv.1) kv.2) inst).alpha =
      assignScatter "alpha" d inst.alpha := by
  induction d generalizing inst with
  | nil => rfl
  | cons kv rest ih =>
      simp only [List.foldl_cons, ih, ScatterPlot.scatter_setget_alpha, assignScatter]

theorem ScatterPlot.scatter_setget_marker (p : ScatterPlot) (a : String) (v : PyVal) :
    (p.setattr a v).marker = if a = "marker" then some v else p.marker := by
  by_cases h1 : a = "color"
  · subst h1; rfl
  by_cases h2 : a = "alpha"
  · subst h2; rfl
  by_cases h3 : a = "marker"
  · subst h3; rfl
  by_cases h4 : a = "size"
  · subst h4; rfl
  by_cases h5 : a = "cmap"
  · subst h5; rfl
  by_cases h6 : a = "face_color"
  · subst h6; rfl
  simp [ScatterPlot.setattr, h1, h2, h3, h4, h5, h6]

theorem ScatterPlot.scatter_foldset_marker (d : List (String × PyVal)) (inst : ScatterPlot) :
    (d.foldl (fun i kv => i.setattr (resolveScatterKey kv.1) kv.2) inst).marker =
      assignScatter "marker" d inst.marker := by
  induction d generalizing inst with
  | nil => rfl
  | cons kv rest ih =>
      simp only [List.foldl_cons, ih, ScatterPlot.scatter_setget_marker, assignScatter]

theorem ScatterPlot.scatter_setget_size (p : ScatterPlot) (a : String) (v : PyVal) :
    (p.setattr a v).size = if a = "size" then some v else p.size := by
  by_cases h1 : a = "color"
  · subst h1; rfl
  by_cases h2 : a = "alpha"
  · subst h2; rfl
  by_cases h3 : a = "marker"
  · subst h3; rfl
  by_cases h4 : a = "size"
  · subst h4; rfl
  by_cases h5 : a = "cmap"
  · subst h5; rfl
  by_cases h6 : a = "face_color"
  · subst h6; rfl
  simp [ScatterPlot.setattr, h1, h2, h3, h4, h5, h6]

theorem ScatterPlot.scatter_foldset_size (d : List (String × PyVal)) (inst : ScatterPlot) :
    (d.foldl (fun i kv => i.setattr (resolveScatterKey kv.1) kv.2) inst).size =
      assignScatter "size" d inst.size := by
  induction d generalizing inst with
  | nil => rfl
  | cons kv rest ih =>
      simp only [List.foldl_cons, ih, ScatterPlot.scatter_setget_size, assignScatter]

theorem ScatterPlot.scatter_setget_cmap (p : ScatterPlot) (a : String) (v : PyVal) :
    (p.setattr a v).cmap = if a = "cmap" then some v else p.cmap := by
  by_cases h1 : a = "color"
  · subst h1; rfl
  by_cases h2 : a = "alpha"
  · subst h2; rfl
  by_cases h3 : a = "marker"
  · subst h3; rfl
  by_cases h4 : a = "size"
  · subst h4; rfl
  by_cases h5 : a = "cmap"
  · subst h5; rfl
  by_cases h6 : a = "face_color"
  · subst h6; rfl
  simp [ScatterPlot.setattr, h1, h2, h3, h4, h5, h6]

theorem ScatterPlot.scatter_foldset_cmap (d : List (String × PyVal)) (inst : ScatterPlot) :
    (d.foldl (fun i kv => i.setattr (resolveScatterKey kv.1) kv.2) inst).cmap =
      assignScatter "cmap" d inst.cmap := by
  induction d generalizing inst with
  | nil => rfl
  | cons kv rest ih =>
      simp only [List.foldl_cons, ih, ScatterPlot.scatter_setget_cmap, assignScatter]

theorem ScatterPlot.scatter_setget_face_color (p : ScatterPlot) (a : String) (v : PyVal) :
    (p.setattr a v).face_color = if a = "face_color" then some v else p.face_color := by
  by_cases h1 : a = "color"
  · subst h1; rfl
  by_cases h2 : a = "alpha"
  · subst h2; rfl
  by_cases h3 : a = "marker"
  · subst h3; rfl
  by_cases h4 : a = "size"
  · subst h4; rfl
  by_cases h5 : a = "cmap"
  · subst h5; rfl
  by_cases h6 : a = "face_color"
  · subst h6; rfl
  simp [ScatterPlot.setattr, h1, h2, h3, h4, h5, h6]

theorem ScatterPlot.scatter_foldset_face_color (d : List (String × PyVal)) (inst : ScatterPlot) :
    (d.foldl (fun i kv => i.setattr (resolveScatterKey kv.1) kv.2) inst).face_color =
      assignScatter "face_color" d inst.face_color := by
  induction d generalizing inst with
  | nil => rfl
  | cons kv rest ih =>
      simp only [List.foldl_cons, ih, ScatterPlot.scatter_setget_face_color, assignScatter]

theorem ErrorPlot.error_setget_line_style (p : ErrorPlot) (a : String) (v : PyVal) :
    (p.setattr a v).line_style = if a = "line_style" then some v else p.line_style := by
  by_cases h1 : a = "line_style"
  · subst h1; rfl
  by_cases h2 : a = "line_width"
  · subst h2; rfl
  by_cases h3 : a = "color"
  · subst h3; rfl
  by_cases h4 : a = "alpha"
  · subst h4; rfl
  by_cases h5 : a = "marker"
  · subst h5; rfl
  by_cases h6 : a = "marker_size"
  · subst h6; rfl
  by_cases h7 : a = "marker_edge_color"
  · subst h7; rfl
  by_cases h8 : a = "marker_face_color"
  · subst h8; rfl
  by_cases h9 : a = "marker_edge_width"
  · subst h9; rfl
  by_cases h10 : a = "capsize"
  · subst h10; rfl
  by_cases h11 : a = "elinewidth"
  · subst h11; rfl
  by_cases h12 : a = "ecolor"
  · subst h12; rfl
  by_cases h13 : a = "capthick"
  · subst h13; rfl
  simp [ErrorPlot.setattr, h1, h2, h3, h4, h5, h6, h7, h8, h9, h10, h11, h12, h13]

theorem ErrorPlot.error_foldset_line_style (d : List (String × PyVal)) (inst : ErrorPlot) :
    (d.foldl (fun i kv => i.setattr (resolveErrorKey kv.1) kv.2) inst).line_style =
      assignError "line_style" d inst.line_style := by
  induction d generalizing inst with
  | nil => rfl
  | cons kv rest ih =>
      simp only [List.foldl_cons, ih, ErrorPlot.error_setget_line_style, assignError]

theorem ErrorPlot.error_setget_line_width (p : ErrorPlot) (a : String) (v : PyVal) :
    (p.setattr a v).line_width = if a = "line_width" then some v else p.line_width := by
  by_cases h1 : a = "line_style"
  · subst h1; rfl
  by_cases h2 : a = "line_width"
  · subst h2; rfl
  by_cases h3 : a = "color"
  · subst h3; rfl
  by_cases h4 : a = "alpha"
  · subst h4; rfl
  by_cases h5 : a = "marker"
  · subst h5; rfl
  by_cases h6 : a = "marker_size"
  · subst h6; rfl
  by_cases h7 : a = "marker_edge_color"
  · subst h7; rfl
  by_cases h8 : a = "marker_face_color"
  · subst h8; rfl
  by_cases h9 : a = "marker_edge_width"
  · subst h9; rfl
  by_cases h10 : a = "capsize"
  · subst h10; rfl
  by_cases h11 : a = "elinewidth"
  · subst h11; rfl
  by_cases h12 : a = "ecolor"
  · subst h12; rfl
  by_cases h13 : a = "capthick"
  · subst h13; rfl
  simp [ErrorPlot.setattr, h1, h2, h3, h4, h5, h6, h7, h8, h9, h10, h11, h12, h13]

theorem ErrorPlot.error_foldset_line_width (d : List (String × PyVal)) (inst : ErrorPlot) :
    (d.foldl (fun i kv => i.setattr (resolveErrorKey kv.1) kv.2) inst).line_width =
      assignError "line_width" d inst.line_width := by
  induction d generalizing inst with
  | nil => rfl
  | cons kv rest ih =>
      simp only [List.foldl_cons, ih, ErrorPlot.error_setget_line_width, assignError]

theorem ErrorPlot.error_setget_color (p : ErrorPlot) (a : String) (v : PyVal) :
    (p.setattr a v).color = if a = "color" then some v else p.color := by
  by_cases h1 : a = "line_style"
  · subst h1; rfl
  by_cases h2 : a = "line_width"
  · subst h2; rfl
  by_cases h3 : a = "color"
  · subst h3; rfl
  by_cases h4 : a = "alpha"
  · subst h4; rfl
  by_cases h5 : a = "marker"
  · subst h5; rfl
  by_cases h6 : a = "marker_size"
  · subst h6; rfl
  by_cases h7 : a = "marker_edge_color"
  · subst h7; rfl
  by_cases h8 : a = "marker_face_color"
  · subst h8; rfl
  by_cases h9 : a = "marker_edge_width"
  · subst h9; rfl
  by_cases h10 : a = "capsize"
  · subst h10; rfl
  by_cases h11 : a = "elinewidth"
  · subst h11; rfl
  by_cases h12 : a = "ecolor"
  · subst h12; rfl
  by_cases h13 : a = "capthick"
  · subst h13; rfl
  simp [ErrorPlot.setattr, h1, h2, h3, h4, h5, h6, h7, h8, h9, h10, h11, h12, h13]

theorem ErrorPlot.error_foldset_color (d : List (String × PyVal)) (inst : ErrorPlot) :
    (d.foldl (fun i kv => i.setattr (resolveErrorKey kv.1) kv.2) inst).color =
      assignError "color" d inst.color := by
  induction d generalizing inst with
  | nil => rfl
  | cons kv rest ih =>
      simp only [List.foldl_cons, ih, ErrorPlot.error_setget_color, assignError]

theorem ErrorPlot.error_setget_alpha (p : ErrorPlot) (a : String) (v : PyVal) :
    (p.setattr a v).alpha = if a = "alpha" then some v else p.alpha := by
  by_cases h1 : a = "line_style"
  · subst h1; rfl
  by_cases h2 : a = "line_width"
  · subst h2; rfl
  by_cases h3 : a = "color"
  · subst h3; rfl
  by_cases h4 : a = "alpha"
  · subst h4; rfl
  by_cases h5 : a = "marker"
  · subst h5; rfl
  by_cases h6 : a = "marker_size"
  · subst h6; rfl
  by_cases h7 : a = "marker_edge_color"
  · subst h7; rfl
  by_cases h8 : a = "marker_face_color"
  · subst h8; rfl
  by_cases h9 : a = "marker_edge_width"
  · subst h9; rfl
  by_cases h10 : a = "capsize"
  · subst h10; rfl
  by_cases h11 : a = "elinewidth"
  · subst h11; rfl
  by_cases h12 : a = "ecolor"
  · subst h12; rfl
  by_cases h13 : a = "capthick"
  · subst h13; rfl
  simp [ErrorPlot.setattr, h1, h2, h3, h4, h5, h6, h7, h8, h9, h10, h11, h12, h13]

theorem ErrorPlot.error_foldset_alpha (d : List (String × PyVal)) (inst : ErrorPlot) :
    (d.foldl (fun i kv => i.setattr (resolveErrorKey kv.1) kv.2) inst).alpha =
      assignError "alpha" d inst.alpha := by
  induction d generalizing inst with
  | nil => rfl
  | cons kv rest ih =>
      simp only [List.foldl_cons, ih, ErrorPlot.error_setget_alpha, assignError]

theorem ErrorPlot.error_setget_marker (p : ErrorPlot) (a : String) (v : PyVal) :
    (p.setattr a v).marker = if a = "marker" then some v else p.marker := by
  by_cases h1 : a = "line_style"
  · subst h1; rfl
  by_cases h2 : a = "line_width"
  · subst h2; rfl
  by_cases h3 : a = "color"
  · subst h3; rfl
  by_cases h4 : a = "alpha"
  · subst h4; rfl
  by_cases h5 : a = "marker"
  · subst h5; rfl
  by_cases h6 : a = "marker_size"
  · subst h6; rfl
  by_cases h7 : a = "marker_edge_color"
  · subst h7; rfl
  by_cases h8 : a = "marker_face_color"
  · subst h8; rfl
  by_cases h9 : a = "marker_edge_width"
  · subst h9; rfl
  by_cases h10 : a = "capsize"
  · subst h10; rfl
  by_cases h11 : a = "elinewidth"
  · subst h11; rfl
  by_cases h12 : a = "ecolor"
  · subst h12; rfl
  by_cases h13 : a = "capthick"
  · subst h13; rfl
  simp [ErrorPlot.setattr, h1, h2, h3, h4, h5, h6, h7, h8, h9, h10, h11, h12, h13]

theorem ErrorPlot.error_foldset_marker (d : List (String × PyVal)) (inst : ErrorPlot) :
    (d.foldl (fun i kv => i.setattr (resolveErrorKey kv.1) kv.2) inst).marker =
      assignError "marker" d inst.marker := by
  induction d generalizing inst with
  | nil => rfl
  | cons kv rest ih =>
      simp only [List.foldl_cons, ih, ErrorPlot.error_setget_marker, assignError]

theorem ErrorPlot.error_setget_marker_size (p : ErrorPlot) (a : String) (v : PyVal) :
    (p.setattr a v).marker_size = if a = "marker_size" then some v else p.marker_size := by
  by_cases h1 : a = "line_style"
  · subst h1; rfl
  by_cases h2 : a = "line_width"
  · subst h2; rfl
  by_cases h3 : a = "color"
  · subst h3; rfl
  by_cases h4 : a = "alpha"
  · subst h4; rfl
  by_cases h5 : a = "marker"
  · subst h5; rfl
  by_cases h6 : a = "marker_size"
  · subst h6; rfl
  by_cases h7 : a = "marker_edge_color"
  · subst h7; rfl
  by_cases h8 : a = "marker_face_color"
  · subst h8; rfl
  by_cases h9 : a = "marker_edge_width"
  · subst h9; rfl
  by_cases h10 : a = "capsize"
  · subst h10; rfl
  by_cases h11 : a = "elinewidth"
  · subst h11; rfl
  by_cases h12 : a = "ecolor"
  · subst h12; rfl
  by_cases h13 : a = "capthick"
  · subst h13; rfl
  simp [ErrorPlot.setattr, h1, h2, h3, h4, h5, h6, h7, h8, h9, h10, h11, h12, h13]

theorem ErrorPlot.error_foldset_marker_size (d : List (String × PyVal)) (inst : ErrorPlot) :
    (d.foldl (fun i kv => i.setattr (resolveErrorKey kv.1) kv.2) inst).marker_size =
      assignError "marker_size" d inst.marker_size := by
  induction d generalizing inst with
  | nil => rfl
  | cons kv rest ih =>
      simp only [List.foldl_cons, ih, ErrorPlot.error_setget_marker_size, assignError]

theorem ErrorPlot.error_setget_marker_edge_color (p : ErrorPlot) (a : String) (v : PyVal) :
    (p.setattr a v).marker_edge_color = if a = "marker_edge_color" then some v else p.marker_edge_color := by
  by_cases h1 : a = "line_style"
  · subst h1; rfl
  by_cases h2 : a = "line_width"
  · subst h2; rfl
  by_cases h3 : a = "color"
  · subst h3; rfl
  by_cases h4 : a = "alpha"
  · subst h4; rfl
  by_cases h5 : a = "marker"
  · subst h5; rfl
  by_cases h6 : a = "marker_size"
  · subst h6; rfl
  by_cases h7 : a = "marker_edge_color"
  · subst h7; rfl
  by_cases h8 : a = "marker_face_color"
  · subst h8; rfl
  by_cases h9 : a = "marker_edge_width"
  · subst h9; rfl
  by_cases h10 : a = "capsize"
  · subst h10; rfl
  by_cases h11 : a = "elinewidth"
  · subst h11; rfl
  by_cases h12 : a = "ecolor"
  · subst h12; rfl
  by_cases h13 : a = "capthick"
  · subst h13; rfl
  simp [ErrorPlot.setattr, h1, h2, h3, h4, h5, h6, h7, h8, h9, h10, h11, h12, h13]

theorem ErrorPlot.error_foldset_marker_edge_color (d : List (String × PyVal)) (inst : ErrorPlot) :
    (d.foldl (fun i kv => i.setattr (resolveErrorKey kv.1) kv.2) inst).marker_edge_color =
      assignError "marker_edge_color" d inst.marker_edge_color := by
  induction d generalizing inst with
  | nil => rfl
  | cons kv rest ih =>
      simp only [List.foldl_cons, ih, ErrorPlot.error_setget_marker_edge_color, assignError]

theorem ErrorPlot.error_setget_marker_face_color (p : ErrorPlot) (a : String) (v : PyVal) :
    (p.setattr a v).marker_face_color = if a = "marker_face_color" then some v else p.marker_face_color := by
  by_cases h1 : a = "line_style"
  · subst h1; rfl
  by_cases h2 : a = "line_width"
  · subst h2; rfl
  by_cases h3 : a = "color"
  · subst h3; rfl
  by_cases h4 : a = "alpha"
  · subst h4; rfl
  by_cases h5 : a = "marker"
  · subst h5; rfl
  by_cases h6 : a = "marker_size"
  · subst h6; rfl
  by_cases h7 : a = "marker_edge_color"
  · subst h7; rfl
  by_cases h8 : a = "marker_face_color"
  · subst h8; rfl
  by_cases h9 : a = "marker_edge_width"
  · subst h9; rfl
  by_cases h10 : a = "capsize"
  · subst h10; rfl
  by_cases h11 : a = "elinewidth"
  · subst h11; rfl
  by_cases h12 : a = "ecolor"
  · subst h12; rfl
  by_cases h13 : a = "capthick"
  · subst h13; rfl
  simp [ErrorPlot.setattr, h1, h2, h3, h4, h5, h6, h7, h8, h9, h10, h11, h12, h13]

theorem ErrorPlot.error_foldset_marker_face_color (d : List (String × PyVal)) (inst : ErrorPlot) :
    (d.foldl (fun i kv => i.setattr (resolveErrorKey kv.1) kv.2) inst).marker_face_color =
      assignError "marker_face_color" d inst.marker_face_color := by
  induction d generalizing inst with
  | nil => rfl
  | cons kv rest ih =>
      simp only [List.foldl_cons, ih, ErrorPlot.error_setget_marker_face_color, assignError]

theorem ErrorPlot.error_setget_marker_edge_width (p : ErrorPlot) (a : String) (v : PyVal) :
    (p.setattr a v).marker_edge_width = if a = "marker_edge_width" then some v else p.marker_edge_width := by
  by_cases h1 : a = "line_style"
  · subst h1; rfl
  by_cases h2 : a = "line_width"
  · subst h2; rfl
  by_cases h3 : a = "color"
  · subst h3; rfl
  by_cases h4 : a = "alpha"
  · subst h4; rfl
  by_cases h5 : a = "marker"
  · subst h5; rfl
  by_cases h6 : a = "marker_size"
  · subst h6; rfl
  by_cases h7 : a = "marker_edge_color"
  · subst h7; rfl
  by_cases h8 : a = "marker_face_color"
  · subst h8; rfl
  by_cases h9 : a = "marker_edge_width"
  · subst h9; rfl
  by_cases h10 : a = "capsize"
  · subst h10; rfl
  by_cases h11 : a = "elinewidth"
  · subst h11; rfl
  by_cases h12 : a = "ecolor"
  · subst h12; rfl
  by_cases h13 : a = "capthick"
  · subst h13; rfl
  simp [ErrorPlot.setattr, h1, h2, h3, h4, h5, h6, h7, h8, h9, h10, h11, h12, h13]

theorem ErrorPlot.error_foldset_marker_edge_width (d : List (String × PyVal)) (inst : ErrorPlot) :
    (d.foldl (fun i kv => i.setattr (resolveErrorKey kv.1) kv.2) inst).marker_edge_width =
      assignError "marker_edge_width" d inst.marker_edge_width := by
  induction d generalizing inst with
  | nil => rfl
  | cons kv rest ih =>
      simp only [List.foldl_cons, ih, ErrorPlot.error_setget_marker_edge_width, assignError]

theorem ErrorPlot.error_setget_capsize (p : ErrorPlot) (a : String) (v : PyVal) :
    (p.setattr a v).capsize = if a = "capsize" then some v else p.capsize := by
  by_cases h1 : a = "line_style"
  · subst h1; rfl
  by_cases h2 : a = "line_width"
  · subst h2; rfl
  by_cases h3 : a = "color"
  · subst h3; rfl
  by_cases h4 : a = "alpha"
  · subst h4; rfl
  by_cases h5 : a = "marker"
  · subst h5; rfl
  by_cases h6 : a = "marker_size"
  · subst h6; rfl
  by_cases h7 : a = "marker_edge_color"
  · subst h7; rfl
  by_cases h8 : a = "marker_face_color"
  · subst h8; rfl
  by_cases h9 : a = "marker_edge_width"
  · subst h9; rfl
  by_cases h10 : a = "capsize"
  · subst h10; rfl
  by_cases h11 : a = "elinewidth"
  · subst h11; rfl
  by_cases h12 : a = "ecolor"
  · subst h12; rfl
  by_cases h13 : a = "capthick"
  · subst h13; rfl
  simp [ErrorPlot.setattr, h1, h2, h3, h4, h5, h6, h7, h8, h9, h10, h11, h12, h13]

theorem ErrorPlot.error_foldset_capsize (d : List (String × PyVal)) (inst : ErrorPlot) :
    (d.foldl (fun i kv => i.setattr (resolveErrorKey kv.1) kv.2) inst).capsize =
      assignError "capsize" d inst.capsize := by
  induction d generalizing inst with
  | nil => rfl
  | cons kv rest ih =>
      simp only [List.foldl_cons, ih, ErrorPlot.error_setget_capsize, assignError]

theorem ErrorPlot.error_setget_elinewidth (p : ErrorPlot) (a : String) (v : PyVal) :
    (p.setattr a v).elinewidth = if a = "elinewidth" then some v else p.elinewidth := by
  by_cases h1 : a = "line_style"
  · subst h1; rfl
  by_cases h2 : a = "line_width"
  · subst h2; rfl
  by_cases h3 : a = "color"
  · subst h3; rfl
  by_cases h4 : a = "alpha"
  · subst h4; rfl
  by_cases h5 : a = "marker"
  · subst h5; rfl
  by_cases h6 : a = "marker_size"
  · subst h6; rfl
  by_cases h7 : a = "marker_edge_color"
  · subst h7; rfl
  by_cases h8 : a = "marker_face_color"
  · subst h8; rfl
  by_cases h9 : a = "marker_edge_width"
  · subst h9; rfl
  by_cases h10 : a = "capsize"
  · subst h10; rfl
  by_cases h11 : a = "elinewidth"
  · subst h11; rfl
  by_cases h12 : a = "ecolor"
  · subst h12; rfl
  by_cases h13 : a = "capthick"
  · subst h13; rfl
  simp [ErrorPlot.setattr, h1, h2, h3, h4, h5, h6, h7, h8, h9, h10, h11, h12, h13]

theorem ErrorPlot.error_foldset_elinewidth (d : List (String × PyVal)) (inst : ErrorPlot) :
    (d.foldl (fun i kv => i.setattr (resolveErrorKey kv.1) kv.2) inst).elinewidth =
      assignError "elinewidth" d inst.elinewidth := by
  induction d generalizing inst with
  | nil => rfl
  | cons kv rest ih =>
      simp only [List.foldl_cons, ih, ErrorPlot.error_setget_elinewidth, assignError]

theorem ErrorPlot.error_setget_ecolor (p : ErrorPlot) (a : String) (v : PyVal) :
    (p.setattr a v).ecolor = if a = "ecolor" then some v else p.ecolor := by
  by_cases h1 : a = "line_style"
  · subst h1; rfl
  by_cases h2 : a = "line_width"
  · subst h2; rfl
  by_cases h3 : a = "color"
  · subst h3; rfl
  by_cases h4 : a = "alpha"
  · subst h4; rfl
  by_cases h5 : a = "marker"
  · subst h5; rfl
  by_cases h6 : a = "marker_size"
  · subst h6; rfl
  by_cases h7 : a = "marker_edge_color"
  · subst h7; rfl
  by_cases h8 : a = "marker_face_color"
  · subst h8; rfl
  by_cases h9 : a = "marker_edge_width"
  · subst h9; rfl
  by_cases h10 : a = "capsize"
  · subst h10; rfl
  by_cases h11 : a = "elinewidth"
  · subst h11; rfl
  by_cases h12 : a = "ecolor"
  · subst h12; rfl
  by_cases h13 : a = "capthick"
  · subst h13; rfl
  simp [ErrorPlot.setattr, h1, h2, h3, h4, h5, h6, h7, h8, h9, h10, h11, h12, h13]

theorem ErrorPlot.error_foldset_ecolor (d : List (String × PyVal)) (inst : ErrorPlot) :
    (d.foldl (fun i kv => i.setattr (resolveErrorKey kv.1) kv.2) inst).ecolor =
      assignError "ecolor" d inst.ecolor := by
  induction d generalizing inst with
  | nil => rfl
  | cons kv rest ih =>
      simp only [List.foldl_cons, ih, ErrorPlot.error_setget_ecolor, assignError]

theorem ErrorPlot.error_setget_capthick (p : ErrorPlot) (a : String) (v : PyVal) :
    (p.setattr a v).capthick = if a = "capthick" then some v else p.capthick := by
  by_cases h1 : a = "line_style"
  · subst h1; rfl
  by_cases h2 : a = "line_width"
  · subst h2; rfl
  by_cases h3 : a = "color"
  · subst h3; rfl
  by_cases h4 : a = "alpha"
  · subst h4; rfl
  by_cases h5 : a = "marker"
  · subst h5; rfl
  by_cases h6 : a = "marker_size"
  · subst h6; rfl
  by_cases h7 : a = "marker_edge_color"
  · subst h7; rfl
  by_cases h8 : a = "marker_face_color"
  · subst h8; rfl
  by_cases h9 : a = "marker_edge_width"
  · subst h9; rfl
  by_cases h10 : a = "capsize"
  · subst h10; rfl
  by_cases h11 : a = "elinewidth"
  · subst h11; rfl
  by_cases h12 : a = "ecolor"
  · subst h12; rfl
  by_cases h13 : a = "capthick"
  · subst h13; rfl
  simp [ErrorPlot.setattr, h1, h2, h3, h4, h5, h6, h7, h8, h9, h10, h11, h12, h13]

theorem ErrorPlot.error_foldset_capthick (d : List (String × PyVal)) (inst : ErrorPlot) :
    (d.foldl (fun i kv => i.setattr (resolveErrorKey kv.1) kv.2) inst).capthick =
      assignError "capthick" d inst.capthick := by
  induction d generalizing inst with
  | nil => rfl
  | cons kv rest ih =>
      simp only [List.foldl_cons, ih, ErrorPlot.error_setget_capthick, assignError]

theorem resolveLineKey_ls : resolveLineKey "ls" = "line_style" := rfl

theorem resolveLineKey_lw : resolveLineKey "lw" = "line_width" := rfl

theorem resolveLineKey_color : resolveLineKey "color" = "color" := rfl

theorem resolveLineKey_alpha : resolveLineKey "alpha" = "alpha" := rfl

theorem resolveLineKey_marker : resolveLineKey "marker" = "marker" := rfl

theorem resolveLineKey_ms : resolveLineKey "ms" = "marker_size" := rfl

theorem resolveLineKey_mec : resolveLineKey "mec" = "marker_edge_color" := rfl

theorem resolveLineKey_mfc : resolveLineKey "mfc" = "marker_face_color" := rfl

theorem resolveLineKey_mew : resolveLineKey "mew" = "marker_edge_width" := rfl

theorem resolveScatterKey_c : resolveScatterKey "c" = "color" := rfl

theorem resolveScatterKey_alpha : resolveScatterKey "alpha" = "alpha" := rfl

theorem resolveScatterKey_marker : resolveScatterKey "marker" = "marker" := rfl

theorem resolveScatterKey_s : resolveScatterKey "s" = "size" := rfl

theorem resolveScatterKey_cmap : resolveScatterKey "cmap" = "cmap" := rfl

theorem resolveScatterKey_fc : resolveScatterKey "fc" = "face_color" := rfl

theorem resolveErrorKey_ls : resolveErrorKey "ls" = "line_style" := rfl

theorem resolveErrorKey_lw : resolveErrorKey "lw" = "line_width" := rfl

theorem resolveErrorKey_color : resolveErrorKey "color" = "color" := rfl

theorem resolveErrorKey_alpha : resolveErrorKey "alpha" = "alpha" := rfl

theorem resolveErrorKey_marker : resolveErrorKey "marker" = "marker" := rfl

theorem resolveErrorKey_ms : resolveErrorKey "ms" = "marker_size" := rfl

theorem resolveErrorKey_mec : resolveErrorKey "mec" = "marker_edge_color" := rfl

theorem resolveErrorKey_mfc : resolveErrorKey "mfc" = "marker_face_color" := rfl

theorem resolveErrorKey_mew : resolveErrorKey "mew" = "marker_edge_width" := rfl

theorem resolveErrorKey_capsize : resolveErrorKey "capsize" = "capsize" := rfl

theorem resolveErrorKey_elinewidth : resolveErrorKey "elinewidth" = "elinewidth" := rfl

theorem resolveErrorKey_ecolor : resolveErrorKey "ecolor" = "ecolor" := rfl

theorem resolveErrorKey_capthick : resolveErrorKey "capthick" = "capthick" := rfl

theorem LinePlot.line_popmap_line_style (p : LinePlot) (h : PyVal → PyVal) :
    (LinePlot.populate (p.get_dict.map (fun kv => (kv.1, h kv.2)))).line_style = p.line_style.map h := by
  unfold LinePlot.populate
  rw [LinePlot.line_foldset_line_style]
  simp [LinePlot.get_dict, List.map_append, map_optChunk_snd, assignLine, List.foldl_append,
        foldl_optChunk, optElim_const, optElim_none_some, optElim_some_init,
        LinePlot.init, LinePlot.new, pyOr, resolveLineKey_ls, resolveLineKey_lw, resolveLineKey_color, resolveLineKey_alpha, resolveLineKey_marker, resolveLineKey_ms, resolveLineKey_mec, resolveLineKey_mfc, resolveLineKey_mew]

theorem LinePlot.line_popmap_line_width (p : LinePlot) (h : PyVal → PyVal) :
    (LinePlot.populate (p.get_dict.map (fun kv => (kv.1, h kv.2)))).line_width = p.line_width.map h := by
  unfold LinePlot.populate
  rw [LinePlot.line_foldset_line_width]
  simp [LinePlot.get_dict, List.map_append, map_optChunk_snd, assignLine, List.foldl_append,
        foldl_optChunk, optElim_const, optElim_none_some, optElim_some_init,
        LinePlot.init, LinePlot.new, pyOr, resolveLineKey_ls, resolveLineKey_lw, resolveLineKey_color, resolveLineKey_alpha, resolveLineKey_marker, resolveLineKey_ms, resolveLineKey_mec, resolveLineKey_mfc, resolveLineKey_mew]

theorem LinePlot.line_popmap_color (p : LinePlot) (h : PyVal → PyVal) :
    (LinePlot.populate (p.get_dict.map (fun kv => (kv.1, h kv.2)))).color = some ((p.color.map h).getD get_color) := by
  unfold LinePlot.populate
  rw [LinePlot.line_foldset_color]
  simp [LinePlot.get_dict, List.map_append, map_optChunk_snd, assignLine, List.foldl_append,
        foldl_optChunk, optElim_const, optElim_none_some, optElim_some_init,
        LinePlot.init, LinePlot.new, pyOr, resolveLineKey_ls, resolveLineKey_lw, resolveLineKey_color, resolveLineKey_alpha, resolveLineKey_marker, resolveLineKey_ms, resolveLineKey_mec, resolveLineKey_mfc, resolveLineKey_mew]

theorem LinePlot.line_popmap_alpha (p : LinePlot) (h : PyVal → PyVal) :
    (LinePlot.populate (p.get_dict.map (fun kv => (kv.1, h kv.2)))).alpha = p.alpha.map h := by
  unfold LinePlot.populate
  rw [LinePlot.line_foldset_alpha]
  simp [LinePlot.get_dict, List.map_append, map_optChunk_snd, assignLine, List.foldl_append,
        foldl_optChunk, optElim_const, optElim_none_some, optElim_some_init,
        LinePlot.init, LinePlot.new, pyOr, resolveLineKey_ls, resolveLineKey_lw, resolveLineKey_color, resolveLineKey_alpha, resolveLineKey_marker, resolveLineKey_ms, resolveLineKey_mec, resolveLineKey_mfc, resolveLineKey_mew]

theorem LinePlot.line_popmap_marker (p : LinePlot) (h : PyVal → PyVal) :
    (LinePlot.populate (p.get_dict.map (fun kv => (kv.1, h kv.2)))).marker = p.marker.map h := by
  unfold LinePlot.populate
  rw [LinePlot.line_foldset_marker]
  simp [LinePlot.get_dict, List.map_append, map_optChunk_snd, assignLine, List.foldl_append,
        foldl_optChunk, optElim_const, optElim_none_some, optElim_some_init,
        LinePlot.init, LinePlot.new, pyOr, resolveLineKey_ls, resolveLineKey_lw, resolveLineKey_color, resolveLineKey_alpha, resolveLineKey_marker, resolveLineKey_ms, resolveLineKey_mec, resolveLineKey_mfc, resolveLineKey_mew]

theorem LinePlot.line_popmap_marker_size (p : LinePlot) (h : PyVal → PyVal) :
    (LinePlot.populate (p.get_dict.map (fun kv => (kv.1, h kv.2)))).marker_size = p.marker_size.map h := by
  unfold LinePlot.populate
  rw [LinePlot.line_foldset_marker_size]
  simp [LinePlot.get_dict, List.map_append, map_optChunk_snd, assignLine, List.foldl_append,
        foldl_optChunk, optElim_const, optElim_none_some, optElim_some_init,
        LinePlot.init, LinePlot.new, pyOr, resolveLineKey_ls, resolveLineKey_lw, resolveLineKey_color, resolveLineKey_alpha, resolveLineKey_marker, resolveLineKey_ms, resolveLineKey_mec, resolveLineKey_mfc, resolveLineKey_mew]

theorem LinePlot.line_popmap_marker_edge_color (p : LinePlot) (h : PyVal → PyVal) :
    (LinePlot.populate (p.get_dict.map (fun kv => (kv.1, h kv.2)))).marker_edge_color = p.marker_edge_color.map h := by
  unfold LinePlot.populate
  rw [LinePlot.line_foldset_marker_edge_color]
  simp [LinePlot.get_dict, List.map_append, map_optChunk_snd, assignLine, List.foldl_append,
        foldl_optChunk, optElim_const, optElim_none_some, optElim_some_init,
        LinePlot.init, LinePlot.new, pyOr, resolveLineKey_ls, resolveLineKey_lw, resolveLineKey_color, resolveLineKey_alpha, resolveLineKey_marker, resolveLineKey_ms, resolveLineKey_mec, resolveLineKey_mfc, resolveLineKey_mew]

theorem LinePlot.line_popmap_marker_face_color (p : LinePlot) (h : PyVal → PyVal) :
    (LinePlot.populate (p.get_dict.map (fun kv => (kv.1, h kv.2)))).marker_face_color = p.marker_face_color.map h := by
  unfold LinePlot.populate
  rw [LinePlot.line_foldset_marker_face_color]
  simp [LinePlot.get_dict, List.map_append, map_optChunk_snd, assignLine, List.foldl_append,
        foldl_optChunk, optElim_const, optElim_none_some, optElim_some_init,
        LinePlot.init, LinePlot.new, pyOr, resolveLineKey_ls, resolveLineKey_lw, resolveLineKey_color, resolveLineKey_alpha, resolveLineKey_marker, resolveLineKey_ms, resolveLineKey_mec, resolveLineKey_mfc, resolveLineKey_mew]

theorem LinePlot.line_popmap_marker_edge_width (p : LinePlot) (h : PyVal → PyVal) :
    (LinePlot.populate (p.get_dict.map (fun kv => (kv.1, h kv.2)))).marker_edge_width = p.marker_edge_width.map h := by
  unfold LinePlot.populate
  rw [LinePlot.line_foldset_marker_edge_width]
  simp [LinePlot.get_dict, List.map_append, map_optChunk_snd, assignLine, List.foldl_append,
        foldl_optChunk, optElim_const, optElim_none_some, optElim_some_init,
        LinePlot.init, LinePlot.new, pyOr, resolveLineKey_ls, resolveLineKey_lw, resolveLineKey_color, resolveLineKey_alpha, resolveLineKey_marker, resolveLineKey_ms, resolveLineKey_mec, resolveLineKey_mfc, resolveLineKey_mew]

theorem ScatterPlot.scatter_popmap_color (p : ScatterPlot) (h : PyVal → PyVal) :
    (ScatterPlot.populate (p.get_dict.map (fun kv => (kv.1, h kv.2)))).color = some ((p.color.map h).getD get_color) := by
  unfold ScatterPlot.populate
  rw [ScatterPlot.scatter_foldset_color]
  simp [ScatterPlot.get_dict, List.map_append, map_optChunk_snd, assignScatter, List.foldl_append,
        foldl_optChunk, optElim_const, optElim_none_some, optElim_some_init,
        ScatterPlot.init, ScatterPlot.new, pyOr, resolveScatterKey_c, resolveScatterKey_alpha, resolveScatterKey_marker, resolveScatterKey_s, resolveScatterKey_cmap, resolveScatterKey_fc]

theorem ScatterPlot.scatter_popmap_alpha (p : ScatterPlot) (h : PyVal → PyVal) :
    (ScatterPlot.populate (p.get_dict.map (fun kv => (kv.1, h kv.2)))).alpha = p.alpha.map h := by
  unfold ScatterPlot.populate
  rw [ScatterPlot.scatter_foldset_alpha]
  simp [ScatterPlot.get_dict, List.map_append, map_optChunk_snd, assignScatter, List.foldl_append,
        foldl_optChunk, optElim_const, optElim_none_some, optElim_some_init,
        ScatterPlot.init, ScatterPlot.new, pyOr, resolveScatterKey_c, resolveScatterKey_alpha, resolveScatterKey_marker, resolveScatterKey_s, resolveScatterKey_cmap, resolveScatterKey_fc]

theorem ScatterPlot.scatter_popmap_marker (p : ScatterPlot) (h : PyVal → PyVal) :
    (ScatterPlot.populate (p.get_dict.map (fun kv => (kv.1, h kv.2)))).marker = p.marker.map h := by
  unfold ScatterPlot.populate
  rw [ScatterPlot.scatter_foldset_marker]
  simp [ScatterPlot.get_dict, List.map_append, map_optChunk_snd, assignScatter, List.foldl_append,
        foldl_optChunk, optElim_const, optElim_none_some, optElim_some_init,
        ScatterPlot.init, ScatterPlot.new, pyOr, resolveScatterKey_c, resolveScatterKey_alpha, resolveScatterKey_marker, resolveScatterKey_s, resolveScatterKey_cmap, resolveScatterKey_fc]

theorem ScatterPlot.scatter_popmap_size (p : ScatterPlot) (h : PyVal → PyVal) :
    (ScatterPlot.populate (p.get_dict.map (fun kv => (kv.1, h kv.2)))).size = p.size.map h := by
  unfold ScatterPlot.populate
  rw [ScatterPlot.scatter_foldset_size]
  simp [ScatterPlot.get_dict, List.map_append, map_optChunk_snd, assignScatter, List.foldl_append,
        foldl_optChunk, optElim_const, optElim_none_some, optElim_some_init,
        ScatterPlot.init, ScatterPlot.new, pyOr, resolveScatterKey_c, resolveScatterKey_alpha, resolveScatterKey_marker, resolveScatterKey_s, resolveScatterKey_cmap, resolveScatterKey_fc]

theorem ScatterPlot.scatter_popmap_cmap (p : ScatterPlot) (h : PyVal → PyVal) :
    (ScatterPlot.populate (p.get_dict.map (fun kv => (kv.1, h kv.2)))).cmap = p.cmap.map h := by
  unfold ScatterPlot.populate
  rw [ScatterPlot.scatter_foldset_cmap]
  simp [ScatterPlot.get_dict, List.map_append, map_optChunk_snd, assignScatter, List.foldl_append,
        foldl_optChunk, optElim_const, optElim_none_some, optElim_some_init,
        ScatterPlot.init, ScatterPlot.new, pyOr, resolveScatterKey_c, resolveScatterKey_alpha, resolveScatterKey_marker, resolveScatterKey_s, resolveScatterKey_cmap, resolveScatterKey_fc]

theorem ScatterPlot.scatter_popmap_face_color (p : ScatterPlot) (h : PyVal → PyVal) :
    (ScatterPlot.populate (p.get_dict.map (fun kv => (kv.1, h kv.2)))).face_color = p.face_color.map h := by
  unfold ScatterPlot.populate
  rw [ScatterPlot.scatter_foldset_face_color]
  simp [ScatterPlot.get_dict, List.map_append, map_optChunk_snd, assignScatter, List.foldl_append,
        foldl_optChunk, optElim_const, optElim_none_some, optElim_some_init,
        ScatterPlot.init, ScatterPlot.new, pyOr, resolveScatterKey_c, resolveScatterKey_alpha, resolveScatterKey_marker, resolveScatterKey_s, resolveScatterKey_cmap, resolveScatterKey_fc]

theorem ErrorPlot.error_popmap_line_style (p : ErrorPlot) (h : PyVal → PyVal) :
    (ErrorPlot.populate (p.get_dict.map (fun kv => (kv.1, h kv.2)))).line_style = p.line_style.map h := by
  unfold ErrorPlot.populate
  rw [ErrorPlot.error_foldset_line_style]
  simp [ErrorPlot.get_dict, List.map_append, map_optChunk_snd, assignError, List.foldl_append,
        foldl_optChunk, optElim_const, optElim_none_some, optElim_some_init,
        ErrorPlot.init, ErrorPlot.new, pyOr, resolveErrorKey_ls, resolveErrorKey_lw, resolveErrorKey_color, resolveErrorKey_alpha, resolveErrorKey_marker, resolveErrorKey_ms, resolveErrorKey_mec, resolveErrorKey_mfc, resolveErrorKey_mew, resolveErrorKey_capsize, resolveErrorKey_elinewidth, resolveErrorKey_ecolor, resolveErrorKey_capthick]

theorem ErrorPlot.error_popmap_line_width (p : ErrorPlot) (h : PyVal → PyVal) :
    (ErrorPlot.populate (p.get_dict.map (fun kv => (kv.1, h kv.2)))).line_width = p.line_width.map h := by
  unfold ErrorPlot.populate
  rw [ErrorPlot.error_foldset_line_width]
  simp [ErrorPlot.get_dict, List.map_append, map_optChunk_snd, assignError, List.foldl_append,
        foldl_optChunk, optElim_const, optElim_none_some, optElim_some_init,
        ErrorPlot.init, ErrorPlot.new, pyOr, resolveErrorKey_ls, resolveErrorKey_lw, resolveErrorKey_color, resolveErrorKey_alpha, resolveErrorKey_marker, resolveErrorKey_ms, resolveErrorKey_mec, resolveErrorKey_mfc, resolveErrorKey_mew, resolveErrorKey_capsize, resolveErrorKey_elinewidth, resolveErrorKey_ecolor, resolveErrorKey_capthick]

theorem ErrorPlot.error_popmap_color (p : ErrorPlot) (h : PyVal → PyVal) :
    (ErrorPlot.populate (p.get_dict.map (fun kv => (kv.1, h kv.2)))).color = some ((p.color.map h).getD get_color) := by
  unfold ErrorPlot.populate
  rw [ErrorPlot.error_foldset_color]
  simp [ErrorPlot.get_dict, List.map_append, map_optChunk_snd, assignError, List.foldl_append,
        foldl_optChunk, optElim_const, optElim_none_some, optElim_some_init,
        ErrorPlot.init, ErrorPlot.new, pyOr, resolveErrorKey_ls, resolveErrorKey_lw, resolveErrorKey_color, resolveErrorKey_alpha, resolveErrorKey_marker, resolveErrorKey_ms, resolveErrorKey_mec, resolveErrorKey_mfc, resolveErrorKey_mew, resolveErrorKey_capsize, resolveErrorKey_elinewidth, resolveErrorKey_ecolor, resolveErrorKey_capthick]

theorem ErrorPlot.error_popmap_alpha (p : ErrorPlot) (h : PyVal → PyVal) :
    (ErrorPlot.populate (p.get_dict.map (fun kv => (kv.1, h kv.2)))).alpha = p.alpha.map h := by
  unfold ErrorPlot.populate
  rw [ErrorPlot.error_foldset_alpha]
  simp [ErrorPlot.get_dict, List.map_append, map_optChunk_snd, assignError, List.foldl_append,
        foldl_optChunk, optElim_const, optElim_none_some, optElim_some_init,
        ErrorPlot.init, ErrorPlot.new, pyOr, resolveErrorKey_ls, resolveErrorKey_lw, resolveErrorKey_color, resolveErrorKey_alpha, resolveErrorKey_marker, resolveErrorKey_ms, resolveErrorKey_mec, resolveErrorKey_mfc, resolveErrorKey_mew, resolveErrorKey_capsize, resolveErrorKey_elinewidth, resolveErrorKey_ecolor, resolveErrorKey_capthick]

theorem ErrorPlot.error_popmap_marker (p : ErrorPlot) (h : PyVal → PyVal) :
    (ErrorPlot.populate (p.get_dict.map (fun kv => (kv.1, h kv.2)))).marker = p.marker.map h := by
  unfold ErrorPlot.populate
  rw [ErrorPlot.error_foldset_marker]
  simp [ErrorPlot.get_dict, List.map_append, map_optChunk_snd, assignError, List.foldl_append,
        foldl_optChunk, optElim_const, optElim_none_some, optElim_some_init,
        ErrorPlot.init, ErrorPlot.new, pyOr, resolveErrorKey_ls, resolveErrorKey_lw, resolveErrorKey_color, resolveErrorKey_alpha, resolveErrorKey_marker, resolveErrorKey_ms, resolveErrorKey_mec, resolveErrorKey_mfc, resolveErrorKey_mew, resolveErrorKey_capsize, resolveErrorKey_elinewidth, resolveErrorKey_ecolor, resolveErrorKey_capthick]

theorem ErrorPlot.error_popmap_marker_size (p : ErrorPlot) (h : PyVal → PyVal) :
    (ErrorPlot.populate (p.get_dict.map (fun kv => (kv.1, h kv.2)))).marker_size = p.marker_size.map h := by
  unfold ErrorPlot.populate
  rw [ErrorPlot.error_foldset_marker_size]
  simp [ErrorPlot.get_dict, List.map_append, map_optChunk_snd, assignError, List.foldl_append,
        foldl_optChunk, optElim_const, optElim_none_some, optElim_some_init,
        ErrorPlot.init, ErrorPlot.new, pyOr, resolveErrorKey_ls, resolveErrorKey_lw, resolveErrorKey_color, resolveErrorKey_alpha, resolveErrorKey_marker, resolveErrorKey_ms, resolveErrorKey_mec, resolveErrorKey_mfc, resolveErrorKey_mew, resolveErrorKey_capsize, resolveErrorKey_elinewidth, resolveErrorKey_ecolor, resolveErrorKey_capthick]

theorem ErrorPlot.error_popmap_marker_edge_color (p : ErrorPlot) (h : PyVal → PyVal) :
    (ErrorPlot.populate (p.get_dict.map (fun kv => (kv.1, h kv.2)))).marker_edge_color = p.marker_edge_color.map h := by
  unfold ErrorPlot.populate
  rw [ErrorPlot.error_foldset_marker_edge_color]
  simp [ErrorPlot.get_dict, List.map_append, map_optChunk_snd, assignError, List.foldl_append,
        foldl_optChunk, optElim_const, optElim_none_some, optElim_some_init,
        ErrorPlot.init, ErrorPlot.new, pyOr, resolveErrorKey_ls, resolveErrorKey_lw, resolveErrorKey_color, resolveErrorKey_alpha, resolveErrorKey_marker, resolveErrorKey_ms, resolveErrorKey_mec, resolveErrorKey_mfc, resolveErrorKey_mew, resolveErrorKey_capsize, resolveErrorKey_elinewidth, resolveErrorKey_ecolor, resolveErrorKey_capthick]

theorem ErrorPlot.error_popmap_marker_face_color (p : ErrorPlot) (h : PyVal → PyVal) :
    (ErrorPlot.populate (p.get_dict.map (fun kv => (kv.1, h kv.2)))).marker_face_color = p.marker_face_color.map h := by
  unfold ErrorPlot.populate
  rw [ErrorPlot.error_foldset_marker_face_color]
  simp [ErrorPlot.get_dict, List.map_append, map_optChunk_snd, assignError, List.foldl_append,
        foldl_optChunk, optElim_const, optElim_none_some, optElim_some_init,
        ErrorPlot.init, ErrorPlot.new, pyOr, resolveErrorKey_ls, resolveErrorKey_lw, resolveErrorKey_color, resolveErrorKey_alpha, resolveErrorKey_marker, resolveErrorKey_ms, resolveErrorKey_mec, resolveErrorKey_mfc, resolveErrorKey_mew, resolveErrorKey_capsize, resolveErrorKey_elinewidth, resolveErrorKey_ecolor, resolveErrorKey_capthick]

theorem ErrorPlot.error_popmap_marker_edge_width (p : ErrorPlot) (h : PyVal → PyVal) :
    (ErrorPlot.populate (p.get_dict.map (fun kv => (kv.1, h kv.2)))).marker_edge_width = p.marker_edge_width.map h := by
  unfold ErrorPlot.populate
  rw [ErrorPlot.error_foldset_marker_edge_width]
  simp [ErrorPlot.get_dict, List.map_append, map_optChunk_snd, assignError, List.foldl_append,
        foldl_optChunk, optElim_const, optElim_none_some, optElim_some_init,
        ErrorPlot.init, ErrorPlot.new, pyOr, resolveErrorKey_ls, resolveErrorKey_lw, resolveErrorKey_color, resolveErrorKey_alpha, resolveErrorKey_marker, resolveErrorKey_ms, resolveErrorKey_mec, resolveErrorKey_mfc, resolveErrorKey_mew, resolveErrorKey_capsize, resolveErrorKey_elinewidth, resolveErrorKey_ecolor, resolveErrorKey_capthick]

theorem ErrorPlot.error_popmap_capsize (p : ErrorPlot) (h : PyVal → PyVal) :
    (ErrorPlot.populate (p.get_dict.map (fun kv => (kv.1, h kv.2)))).capsize = p.capsize.map h := by
  unfold ErrorPlot.populate
  rw [ErrorPlot.error_foldset_capsize]
  simp [ErrorPlot.get_dict, List.map_append, map_optChunk_snd, assignError, List.foldl_append,
        foldl_optChunk, optElim_const, optElim_none_some, optElim_some_init,
        ErrorPlot.init, ErrorPlot.new, pyOr, resolveErrorKey_ls, resolveErrorKey_lw, resolveErrorKey_color, resolveErrorKey_alpha, resolveErrorKey_marker, resolveErrorKey_ms, resolveErrorKey_mec, resolveErrorKey_mfc, resolveErrorKey_mew, resolveErrorKey_capsize, resolveErrorKey_elinewidth, resolveErrorKey_ecolor, resolveErrorKey_capthick]

theorem ErrorPlot.error_popmap_elinewidth (p : ErrorPlot) (h : PyVal → PyVal) :
    (ErrorPlot.populate (p.get_dict.map (fun kv => (kv.1, h kv.2)))).elinewidth = p.elinewidth.map h := by
  unfold ErrorPlot.populate
  rw [ErrorPlot.error_foldset_elinewidth]
  simp [ErrorPlot.get_dict, List.map_append, map_optChunk_snd, assignError, List.foldl_append,
        foldl_optChunk, optElim_const, optElim_none_some, optElim_some_init,
        ErrorPlot.init, ErrorPlot.new, pyOr, resolveErrorKey_ls, resolveErrorKey_lw, resolveErrorKey_color, resolveErrorKey_alpha, resolveErrorKey_marker, resolveErrorKey_ms, resolveErrorKey_mec, resolveErrorKey_mfc, resolveErrorKey_mew, resolveErrorKey_capsize, resolveErrorKey_elinewidth, resolveErrorKey_ecolor, resolveErrorKey_capthick]

theorem ErrorPlot.error_popmap_ecolor (p : ErrorPlot) (h : PyVal → PyVal) :
    (ErrorPlot.populate (p.get_dict.map (fun kv => (kv.1, h kv.2)))).ecolor = p.ecolor.map h := by
  unfold ErrorPlot.populate
  rw [ErrorPlot.error_foldset_ecolor]
  simp [ErrorPlot.get_dict, List.map_append, map_optChunk_snd, assignError, List.foldl_append,
        foldl_optChunk, optElim_const, optElim_none_some, optElim_some_init,
        ErrorPlot.init, ErrorPlot.new, pyOr, resolveErrorKey_ls, resolveErrorKey_lw, resolveErrorKey_color, resolveErrorKey_alpha, resolveErrorKey_marker, resolveErrorKey_ms, resolveErrorKey_mec, resolveErrorKey_mfc, resolveErrorKey_mew, resolveErrorKey_capsize, resolveErrorKey_elinewidth, resolveErrorKey_ecolor, resolveErrorKey_capthick]

theorem ErrorPlot.error_popmap_capthick (p : ErrorPlot) (h : PyVal → PyVal) :
    (ErrorPlot.populate (p.get_dict.map (fun kv => (kv.1, h kv.2)))).capthick = p.capthick.map h := by
  unfold ErrorPlot.populate
  rw [ErrorPlot.error_foldset_capthick]
  simp [ErrorPlot.get_dict, List.map_append, map_optChunk_snd, assignError, List.foldl_append,
        foldl_optChunk, optElim_const, optElim_none_some, optElim_some_init,
        ErrorPlot.init, ErrorPlot.new, pyOr, resolveErrorKey_ls, resolveErrorKey_lw, resolveErrorKey_color, resolveErrorKey_alpha, resolveErrorKey_marker, resolveErrorKey_ms, resolveErrorKey_mec, resolveErrorKey_mfc, resolveErrorKey_mew, resolveErrorKey_capsize, resolveErrorKey_elinewidth, resolveErrorKey_ecolor, resolveErrorKey_capthick]

theorem splitPairs_of_pairs (params : List (String × PyVal))
    (h : ∀ kv ∈ params, ∃ a b r, kv.2 = PyVal.pyList (a :: b :: r)) :
    splitPairs params = .ok (params.map (fun kv => (kv.1, pairFst kv.2)),
                             params.map (fun kv => (kv.1, pairSnd kv.2))) := by
  induction params with
  | nil => rfl
  | cons kv rest ih =>
      obtain ⟨a, b, r, hv⟩ := h kv (List.mem_cons_self _ _)
      have hrest := fun kv hm => h kv (List.mem_cons_of_mem _ hm)
      obtain ⟨k, v⟩ := kv
      simp only at hv
      subst hv
      simp [splitPairs, pySlice2, pyUnpack2, ih hrest, pairFst, pairSnd, bind, Except.bind,
            pure, Except.pure]

theorem splitPairs_error_of_int (params : List (String × PyVal))
    (h : ∃ kv ∈ params, ∃ n : Int, kv.2 = PyVal.pyInt n) :
    ∃ e, splitPairs params = .error e := by
  induction params with
  | nil => simp at h
  | cons kv rest ih =>
      obtain ⟨kv', hm, n, hn⟩ := h
      rcases List.mem_cons.mp hm with heq | hmem
      · subst heq
        obtain ⟨k, v⟩ := kv'
        simp only at hn
        subst hn
        exact ⟨"TypeError: 'int' object is not subscriptable",
          by simp [splitPairs, pySlice2, bind, Except.bind]⟩
      · obtain ⟨k, v⟩ := kv
        cases hs : pySlice2 v with
        | error e => exact ⟨e, by simp [splitPairs, hs, bind, Except.bind]⟩
        | ok s =>
          cases hu : pyUnpack2 s with
          | error e => exact ⟨e, by simp [splitPairs, hs, hu, bind, Except.bind]⟩
          | ok ab =>
            obtain ⟨a', b'⟩ := ab
            obtain ⟨e, he⟩ := ih ⟨kv', hmem, n, hn⟩
            exact ⟨e, by simp [splitPairs, hs, hu, he, bind, Except.bind]⟩

theorem n_plotter_main_dict_of_lists (items : List (String × PyVal)) (c : Nat)
    (h : ∀ kv ∈ items, ∃ l, kv.2 = PyVal.pyList l ∧ l ≠ []) :
    n_plotter_main_dict items c = .ok (items.map (fun kv => (kv.1, listCycle kv.2 c))) := by
  induction items with
  | nil => rfl
  | cons kv rest ih =>
      obtain ⟨l, hv, hl⟩ := h kv (List.mem_cons_self _ _)
      have hrest := fun kv hm => h kv (List.mem_cons_of_mem _ hm)
      obtain ⟨k, v⟩ := kv
      simp only at hv
      subst hv
      have hpos : c % l.length < l.length := Nat.mod_lt _ (List.length_pos.mpr hl)
      simp [n_plotter_main_dict, pyLen, pyIndex, listCycle, ih hrest, bind, Except.bind,
            pure, Except.pure, List.length_eq_zero, hl, hpos, List.getD_eq_getElem]

theorem n_plotter_main_dict_error_of_int (items : List (String × PyVal)) (c : Nat)
    (h : ∃ kv ∈ items, ∃ n : Int, kv.2 = PyVal.pyInt n) :
    ∃ e, n_plotter_main_dict items c = .error e := by
  induction items with
  | nil => simp at h
  | cons kv rest ih =>
      obtain ⟨kv', hm, n, hn⟩ := h
      rcases List.mem_cons.mp hm with heq | hmem
      · subst heq
        obtain ⟨k, v⟩ := kv'
        simp only at hn
        subst hn
        exact ⟨"TypeError: object of type 'int' has no len()",
          by simp [n_plotter_main_dict, pyLen, bind, Except.bind]⟩
      · obtain ⟨k, v⟩ := kv
        cases hL : pyLen v with
        | error e => exact ⟨e, by simp [n_plotter_main_dict, hL, bind, Except.bind]⟩
        | ok nv =>
          by_cases hz : nv = 0
          · exact ⟨"ZeroDivisionError: integer modulo by zero",
              by simp [n_plotter_main_dict, hL, hz, bind, Except.bind]⟩
          cases hI : pyIndex v (c % nv) with
          | error e => exact ⟨e, by simp [n_plotter_main_dict, hL, hz, hI, bind, Except.bind]⟩
          | ok x =>
            obtain ⟨e, he⟩ := ih ⟨kv', hmem, n, hn⟩
            exact ⟨e, by simp [n_plotter_main_dict, hL, hz, hI, he, bind, Except.bind]⟩

theorem LinePlot.line_to_dict_eval (p : LinePlot) :
    p.to_dict = [("ls", p.line_style), ("lw", p.line_width), ("color", p.color),
      ("alpha", p.alpha), ("marker", p.marker), ("ms", p.marker_size),
      ("mec", p.marker_edge_color), ("mfc", p.marker_face_color),
      ("mew", p.marker_edge_width)] := rfl

theorem ScatterPlot.scatter_to_dict_eval (p : ScatterPlot) :
    p.to_dict = [("c", p.color), ("alpha", p.alpha), ("marker", p.marker),
      ("s", p.size), ("cmap", p.cmap), ("fc", p.face_color)] := rfl

theorem ErrorPlot.error_to_dict_eval (p : ErrorPlot) :
    p.to_dict = [("ls", p.line_style), ("lw", p.line_width), ("color", p.color),
      ("alpha", p.alpha), ("marker", p.marker), ("ms", p.marker_size),
      ("mec", p.marker_edge_color), ("mfc", p.marker_face_color),
      ("mew", p.marker_edge_width), ("capsize", p.capsize),
      ("elinewidth", p.elinewidth), ("ecolor", p.ecolor), ("capthick", p.capthick)] := rfl

theorem LinePlot.line_sort_to_dict (p : LinePlot) :
    sortPairs p.to_dict = [("alpha", p.alpha), ("color", p.color), ("ls", p.line_style),
      ("lw", p.line_width), ("marker", p.marker), ("mec", p.marker_edge_color),
      ("mew", p.marker_edge_width), ("mfc", p.marker_face_color),
      ("ms", p.marker_size)] := by
  simp +decide [sortPairs, insertPair, LinePlot.line_to_dict_eval]

theorem ScatterPlot.scatter_sort_to_dict (p : ScatterPlot) :
    sortPairs p.to_dict = [("alpha", p.alpha), ("c", p.color), ("cmap", p.cmap),
      ("fc", p.face_color), ("marker", p.marker), ("s", p.size)] := by
  simp +decide [sortPairs, insertPair, ScatterPlot.scatter_to_dict_eval]

theorem ErrorPlot.error_sort_to_dict (p : ErrorPlot) :
    sortPairs p.to_dict = [("alpha", p.alpha), ("capsize", p.capsize),
      ("capthick", p.capthick), ("color", p.color), ("ecolor", p.ecolor),
      ("elinewidth", p.elinewidth), ("ls", p.line_style), ("lw", p.line_width),
      ("marker", p.marker), ("mec", p.marker_edge_color), ("mew", p.marker_edge_width),
      ("mfc", p.marker_face_color), ("ms", p.marker_size)] := by
  simp +decide [sortPairs, insertPair, ErrorPlot.error_to_dict_eval]

theorem LinePlot.line_hashContent_eval (p : LinePlot) :
    p.hashContent = [("alpha", hashVal p.alpha), ("color", hashVal p.color),
      ("ls", hashVal p.line_style), ("lw", hashVal p.line_width),
      ("marker", hashVal p.marker), ("mec", hashVal p.marker_edge_color),
      ("mew", hashVal p.marker_edge_width), ("mfc", hashVal p.marker_face_color),
      ("ms", hashVal p.marker_size)] := by
  rw [LinePlot.hashContent, LinePlot.line_sort_to_dict]; rfl

theorem ScatterPlot.scatter_hashContent_eval (p : ScatterPlot) :
    p.hashContent = [("alpha", hashVal p.alpha), ("c", hashVal p.color),
      ("cmap", hashVal p.cmap), ("fc", hashVal p.face_color),
      ("marker", hashVal p.marker), ("s", hashVal p.size)] := by
  rw [ScatterPlot.hashContent, ScatterPlot.scatter_sort_to_dict]; rfl

theorem ErrorPlot.error_hashContent_eval (p : ErrorPlot) :
    p.hashContent = [("alpha", hashVal p.alpha), ("capsize", hashVal p.capsize),
      ("capthick", hashVal p.capthick), ("color", hashVal p.color),
      ("ecolor", hashVal p.ecolor), ("elinewidth", hashVal p.elinewidth),
      ("ls", hashVal p.line_style), ("lw", hashVal p.line_width),
      ("marker", hashVal p.marker), ("mec", hashVal p.marker_edge_color),
      ("mew", hashVal p.marker_edge_width), ("mfc", hashVal p.marker_face_color),
      ("ms", hashVal p.marker_size)] := by
  rw [ErrorPlot.hashContent, ErrorPlot.error_sort_to_dict]; rfl

/-! ## Claim theorems -/

/-- Claim C1: `dual_axes_data_validation` raises an error if and only if
the axis-label list has length other than 3, the primary x- or y-series
is empty, `use_twin_x` is true and a secondary x-series was supplied, or
`use_twin_x` is false and a secondary y-series was supplied; each of the
four distinct `ValueError` messages (the LabelShapeError, EmptyDataError
and two AxisConflictError conditions of the spec) occurs exactly for its
condition, earlier checks taking precedence; otherwise the function
returns unit with no other effect. -/
theorem claimC1_validation (x1 : List Int) (x2 : Option (List Int)) (y1 : List Int)
    (y2 : Option (List Int)) (twin : Bool) (labels : List (Option String)) :
    (dual_axes_data_validation x1 x2 y1 y2 twin labels = .ok () ↔
      (labels.length = 3 ∧ x1.length ≠ 0 ∧ y1.length ≠ 0 ∧
        ¬(twin ∧ x2.isSome) ∧ ¬(¬twin ∧ y2.isSome)))
    ∧ (dual_axes_data_validation x1 x2 y1 y2 twin labels =
        .error "The axis_labels should have a length of 3." ↔ labels.length ≠ 3)
    ∧ (dual_axes_data_validation x1 x2 y1 y2 twin labels =
        .error "Primary x or y data is empty. Please provide valid data." ↔
        (labels.length = 3 ∧ (x1.length = 0 ∨ y1.length = 0)))
    ∧ (dual_axes_data_validation x1 x2 y1 y2 twin labels =
        .error "Dual Y-axis plot requested but 'x2_data' given." ↔
        (labels.length = 3 ∧ x1.length ≠ 0 ∧ y1.length ≠ 0 ∧ twin ∧ x2.isSome))
    ∧ (dual_axes_data_validation x1 x2 y1 y2 twin labels =
        .error "Dual X-axis plot requested but 'y2_data' given." ↔
        (labels.length = 3 ∧ x1.length ≠ 0 ∧ y1.length ≠ 0 ∧ ¬(twin ∧ x2.isSome) ∧
          ¬twin ∧ y2.isSome)) := by
  unfold dual_axes_data_validation
  split_ifs with h1 h2 h3 h4 <;> simp_all
  all_goals tauto

/-- Witness for C1 at concrete inputs: a five-element label list is
rejected with the label-shape message, and a valid dual-Y request with a
secondary x-series is rejected with the axis-conflict message. -/
theorem claimC1_validation_witness :
    dual_axes_data_validation [1] none [1] none true [some "a"] =
      .error "The axis_labels should have a length of 3." ∧
    dual_axes_data_validation [1] (some [2]) [1] none true [some "a", some "b", some "c"] =
      .error "Dual Y-axis plot requested but 'x2_data' given." ∧
    dual_axes_data_validation [1] none [1] (some [2]) true [some "a", some "b", some "c"] =
      .ok () :=
  ⟨(claimC1_validation [1] none [1] none true [some "a"]).2.1.mpr (by decide),
   (claimC1_validation [1] (some [2]) [1] none true
      [some "a", some "b", some "c"]).2.2.2.1.mpr (by decide),
   (claimC1_validation [1] none [1] (some [2]) true
      [some "a", some "b", some "c"]).1.mpr (by decide)⟩

/-- Claim C2: with every label, the axis-label list and the title unset,
`dual_axes_label_management` returns exactly the tabled defaults:
auto+dual-Y gives "X1 vs Y1" / "X1 vs Y2" / "Plot" / ["X","Y1","Y2"];
auto+dual-X gives "Y vs X1" / "Y vs X2" / "Plot" / ["X1","Y","X2"]; and
with auto_label false (either mode) all four label fields become the
empty string and the axis labels ["","",""] rather than staying
absent. -/
theorem claimC2_label_defaults :
    dual_axes_label_management none none none true none none true =
      { x1y1 := some "X1 vs Y1", x1y2 := some "X1 vs Y2", x2y1 := none,
        title := some "Plot", axisLabels := [some "X", some "Y1", some "Y2"] } ∧
    dual_axes_label_management none none none true none none false =
      { x1y1 := some "Y vs X1", x1y2 := none, x2y1 := some "Y vs X2",
        title := some "Plot", axisLabels := [some "X1", some "Y", some "X2"] } ∧
    dual_axes_label_management none none none false none none true =
      { x1y1 := some "", x1y2 := some "", x2y1 := some "",
        title := some "", axisLabels := [some "", some "", some ""] } ∧
    dual_axes_label_management none none none false none none false =
      { x1y1 := some "", x1y2 := some "", x2y1 := some "",
        title := some "", axisLabels := [some "", some "", some ""] } := by
  refine ⟨rfl, rfl, rfl, rfl⟩

/-- Counterexample to C3 as stated: the caller explicitly supplies the
empty string for the x1y1 label with auto_label true, and the function
replaces it with the default "X1 vs Y1" instead of preserving it
(Python `label or default` treats "" as unset). -/
theorem claimC3_counterexample :
    (dual_axes_label_management (some "") none none true none none true).x1y1 =
      some "X1 vs Y1" ∧
    (dual_axes_label_management (some "") none none true none none true).x1y1 ≠
      some "" := by
  refine ⟨rfl, by decide⟩

/-- Amended C3: an explicitly supplied non-empty label (or non-empty
axis-label list) is preserved unchanged regardless of `auto_label`;
a supplied empty string (or empty list) is treated exactly like an
absent value and replaced by the applicable default. -/
theorem claimC3_amended_preservation (x1y1 x1y2 x2y1 title : Option String)
    (axisL : Option (List (Option String))) (auto twin : Bool) :
    (∀ s, x1y1 = some s → s ≠ "" →
      (dual_axes_label_management x1y1 x1y2 x2y1 auto axisL title twin).x1y1 = some s) ∧
    (∀ s, x1y2 = some s → s ≠ "" →
      (dual_axes_label_management x1y1 x1y2 x2y1 auto axisL title twin).x1y2 = some s) ∧
    (∀ s, x2y1 = some s → s ≠ "" →
      (dual_axes_label_management x1y1 x1y2 x2y1 auto axisL title twin).x2y1 = some s) ∧
    (∀ s, title = some s → s ≠ "" →
      (dual_axes_label_management x1y1 x1y2 x2y1 auto axisL title twin).title = some s) ∧
    (∀ l, axisL = some l → l ≠ [] →
      (dual_axes_label_management x1y1 x1y2 x2y1 auto axisL title twin).axisLabels = l) := by
  cases auto <;> cases twin <;>
    refine ⟨?_, ?_, ?_, ?_, ?_⟩ <;> rintro s rfl hs <;>
      simp [dual_axes_label_management, strOr, listOr, hs]

/-- Witness for amended C3 at the spec's partial-override scenario:
x1y1="Custom1" and title="My Plot" survive auto-labelling. -/
theorem claimC3_amended_witness :
    (dual_axes_label_management (some "Custom1") none none true none
      (some "My Plot") true).x1y1 = some "Custom1" ∧
    (dual_axes_label_management (some "Custom1") none none true none
      (some "My Plot") true).title = some "My Plot" :=
  ⟨(claimC3_amended_preservation (some "Custom1") none none (some "My Plot")
      none true true).1 "Custom1" rfl (by decide),
   (claimC3_amended_preservation (some "Custom1") none none (some "My Plot")
      none true true).2.2.2.1 "My Plot" rfl (by decide)⟩

/-- Claim C4: for every style set with no absent field, rebuilding from
its compact mapping is the identity under Python equality:
`populate(s.get_dict()) == s` for each of the three variants. -/
theorem claimC4_roundtrip :
    (∀ p : LinePlot, (∀ kv ∈ p.to_dict, kv.2 ≠ none) →
      (LinePlot.populate p.get_dict).eqPy p) ∧
    (∀ p : ScatterPlot, (∀ kv ∈ p.to_dict, kv.2 ≠ none) →
      (ScatterPlot.populate p.get_dict).eqPy p) ∧
    (∀ p : ErrorPlot, (∀ kv ∈ p.to_dict, kv.2 ≠ none) →
      (ErrorPlot.populate p.get_dict).eqPy p) := by
  refine ⟨?_, ?_, ?_⟩ <;> intro p h
  · obtain ⟨f1, f2, f3, f4, f5, f6, f7, f8, f9⟩ := p
    simp [LinePlot.line_to_dict_eval] at h
    obtain ⟨v1, rfl⟩ := Option.ne_none_iff_exists'.mp h.1
    obtain ⟨v2, rfl⟩ := Option.ne_none_iff_exists'.mp h.2.1
    obtain ⟨v3, rfl⟩ := Option.ne_none_iff_exists'.mp h.2.2.1
    obtain ⟨v4, rfl⟩ := Option.ne_none_iff_exists'.mp h.2.2.2.1
    obtain ⟨v5, rfl⟩ := Option.ne_none_iff_exists'.mp h.2.2.2.2.1
    obtain ⟨v6, rfl⟩ := Option.ne_none_iff_exists'.mp h.2.2.2.2.2.1
    obtain ⟨v7, rfl⟩ := Option.ne_none_iff_exists'.mp h.2.2.2.2.2.2.1
    obtain ⟨v8, rfl⟩ := Option.ne_none_iff_exists'.mp h.2.2.2.2.2.2.2.1
    obtain ⟨v9, rfl⟩ := Option.ne_none_iff_exists'.mp h.2.2.2.2.2.2.2.2
    rfl
  · obtain ⟨f1, f2, f3, f4, f5, f6⟩ := p
    simp [ScatterPlot.scatter_to_dict_eval] at h
    obtain ⟨v1, rfl⟩ := Option.ne_none_iff_exists'.mp h.1
    obtain ⟨v2, rfl⟩ := Option.ne_none_iff_exists'.mp h.2.1
    obtain ⟨v3, rfl⟩ := Option.ne_none_iff_exists'.mp h.2.2.1
    obtain ⟨v4, rfl⟩ := Option.ne_none_iff_exists'.mp h.2.2.2.1
    obtain ⟨v5, rfl⟩ := Option.ne_none_iff_exists'.mp h.2.2.2.2.1
    obtain ⟨v6, rfl⟩ := Option.ne_none_iff_exists'.mp h.2.2.2.2.2
    rfl
  · obtain ⟨f1, f2, f3, f4, f5, f6, f7, f8, f9, f10, f11, f12, f13⟩ := p
    simp [ErrorPlot.error_to_dict_eval] at h
    obtain ⟨v1, rfl⟩ := Option.ne_none_iff_exists'.mp h.1
    obtain ⟨v2, rfl⟩ := Option.ne_none_iff_exists'.mp h.2.1
    obtain ⟨v3, rfl⟩ := Option.ne_none_iff_exists'.mp h.2.2.1
    obtain ⟨v4, rfl⟩ := Option.ne_none_iff_exists'.mp h.2.2.2.1
    obtain ⟨v5, rfl⟩ := Option.ne_none_iff_exists'.mp h.2.2.2.2.1
    obtain ⟨v6, rfl⟩ := Option.ne_none_iff_exists'.mp h.2.2.2.2.2.1
    obtain ⟨v7, rfl⟩ := Option.ne_none_iff_exists'.mp h.2.2.2.2.2.2.1
    obtain ⟨v8, rfl⟩ := Option.ne_none_iff_exists'.mp h.2.2.2.2.2.2.2.1
    obtain ⟨v9, rfl⟩ := Option.ne_none_iff_exists'.mp h.2.2.2.2.2.2.2.2.1
    obtain ⟨v10, rfl⟩ := Option.ne_none_iff_exists'.mp h.2.2.2.2.2.2.2.2.2.1
    obtain ⟨v11, rfl⟩ := Option.ne_none_iff_exists'.mp h.2.2.2.2.2.2.2.2.2.2.1
    obtain ⟨v12, rfl⟩ := Option.ne_none_iff_exists'.mp h.2.2.2.2.2.2.2.2.2.2.2.1
    obtain ⟨v13, rfl⟩ := Option.ne_none_iff_exists'.mp h.2.2.2.2.2.2.2.2.2.2.2.2
    rfl

/-- Witness for C4 on fully-populated concrete instances of all three
variants. -/
theorem claimC4_roundtrip_witness :
    (LinePlot.populate lineAllSet.get_dict).eqPy lineAllSet ∧
    (ScatterPlot.populate scatterAllSet.get_dict).eqPy scatterAllSet ∧
    (ErrorPlot.populate errorAllSet.get_dict).eqPy errorAllSet :=
  ⟨claimC4_roundtrip.1 lineAllSet (by decide),
   claimC4_roundtrip.2.1 scatterAllSet (by decide),
   claimC4_roundtrip.2.2 errorAllSet (by decide)⟩

/-- Counterexample to C8 as stated: the token "horizontal" does not
select the 1×2 layout; the code accepts only "h" / "v" and raises
OrientationError for "horizontal". -/
theorem claimC8_counterexample :
    two_subplots_layout "horizontal" =
      .error "OrientationError: The orientation must be either 'h' or 'v'." ∧
    two_subplots_layout "horizontal" ≠ .ok (1, 2) := by
  refine ⟨rfl, fun h => ?_⟩
  simp [two_subplots_layout] at h

/-- Amended C8: the orientation token "h" selects the 1×2 layout, "v"
selects the 2×1 layout, and OrientationError is raised iff the token is
neither "h" nor "v". -/
theorem claimC8_amended_orientation (o : String) :
    (two_subplots_layout o = .ok (1, 2) ↔ o = "h") ∧
    (two_subplots_layout o = .ok (2, 1) ↔ o = "v") ∧
    ((∃ e, two_subplots_layout o = .error e) ↔ (o ≠ "h" ∧ o ≠ "v")) := by
  unfold two_subplots_layout
  split_ifs with h1 h2 <;> simp_all

/-- Witness for amended C8 at the two valid tokens. -/
theorem claimC8_amended_witness :
    two_subplots_layout "h" = .ok (1, 2) ∧ two_subplots_layout "v" = .ok (2, 1) :=
  ⟨(claimC8_amended_orientation "h").1.mpr rfl,
   (claimC8_amended_orientation "v").2.1.mpr rfl⟩

theorem isPair2_iff (v : PyVal) :
    isPair2 v = true ↔ ∃ a b r, v = PyVal.pyList (a :: b :: r) := by
  cases v with
  | pyList l => rcases l with _ | ⟨a, _ | ⟨b, r⟩⟩ <;> simp [isPair2]
  | pyInt n => simp [isPair2]
  | pyStr s => simp [isPair2]
  | pyTuple l => simp [isPair2]

theorem isIntVal_iff (v : PyVal) : isIntVal v = true ↔ ∃ n : Int, v = PyVal.pyInt n := by
  cases v <;> simp [isIntVal]

theorem isNonemptyList_iff (v : PyVal) :
    isNonemptyList v = true ↔ ∃ l, v = PyVal.pyList l ∧ l ≠ [] := by
  cases v with
  | pyList l => rcases l with _ | ⟨a, t⟩ <;> simp [isNonemptyList]
  | pyInt n => simp [isNonemptyList]
  | pyStr s => simp [isNonemptyList]
  | pyTuple l => simp [isNonemptyList]

/-- Amended C5: for each variant, when every present field holds a list
of two (or more) elements, `split_dictionary` succeeds and gives
instance A the first element and instance B the second element of every
present field (longer sequences are silently truncated to their first
two); but a field holding a non-sequence scalar makes the whole call
fail with a Python `TypeError` (there is no ShapeError in the code, and
scalars are not passed through undivided). -/
theorem claimC5_amended_split :
    (∀ p : LinePlot, (∀ kv ∈ p.get_dict, isPair2 kv.2 = true) →
      ∃ p1 p2, split_dictionary_line p = .ok (p1, p2) ∧
      ((∀ a b r, p.line_style = some (PyVal.pyList (a :: b :: r)) →
        p1.line_style = some a ∧ p2.line_style = some b)) ∧
      ((∀ a b r, p.line_width = some (PyVal.pyList (a :: b :: r)) →
        p1.line_width = some a ∧ p2.line_width = some b)) ∧
      ((∀ a b r, p.color = some (PyVal.pyList (a :: b :: r)) →
        p1.color = some a ∧ p2.color = some b)) ∧
      ((∀ a b r, p.alpha = some (PyVal.pyList (a :: b :: r)) →
        p1.alpha = some a ∧ p2.alpha = some b)) ∧
      ((∀ a b r, p.marker = some (PyVal.pyList (a :: b :: r)) →
        p1.marker = some a ∧ p2.marker = some b)) ∧
      ((∀ a b r, p.marker_size = some (PyVal.pyList (a :: b :: r)) →
        p1.marker_size = some a ∧ p2.marker_size = some b)) ∧
      ((∀ a b r, p.marker_edge_color = some (PyVal.pyList (a :: b :: r)) →
        p1.marker_edge_color = some a ∧ p2.marker_edge_color = some b)) ∧
      ((∀ a b r, p.marker_face_color = some (PyVal.pyList (a :: b :: r)) →
        p1.marker_face_color = some a ∧ p2.marker_face_color = some b)) ∧
      ((∀ a b r, p.marker_edge_width = some (PyVal.pyList (a :: b :: r)) →
        p1.marker_edge_width = some a ∧ p2.marker_edge_width = some b))) ∧
    (∀ p : ScatterPlot, (∀ kv ∈ p.get_dict, isPair2 kv.2 = true) →
      ∃ p1 p2, split_dictionary_scatter p = .ok (p1, p2) ∧
      ((∀ a b r, p.color = some (PyVal.pyList (a :: b :: r)) →
        p1.color = some a ∧ p2.color = some b)) ∧
      ((∀ a b r, p.alpha = some (PyVal.pyList (a :: b :: r)) →
        p1.alpha = some a ∧ p2.alpha = some b)) ∧
      ((∀ a b r, p.marker = some (PyVal.pyList (a :: b :: r)) →
        p1.marker = some a ∧ p2.marker = some b)) ∧
      ((∀ a b r, p.size = some (PyVal.pyList (a :: b :: r)) →
        p1.size = some a ∧ p2.size = some b)) ∧
      ((∀ a b r, p.cmap = some (PyVal.pyList (a :: b :: r)) →
        p1.cmap = some a ∧ p2.cmap = some b)) ∧
      ((∀ a b r, p.face_color = some (PyVal.pyList (a :: b :: r)) →
        p1.face_color = some a ∧ p2.face_color = some b))) ∧
    (∀ p : ErrorPlot, (∀ kv ∈ p.get_dict, isPair2 kv.2 = true) →
      ∃ p1 p2, split_dictionary_error p = .ok (p1, p2) ∧
      ((∀ a b r, p.line_style = some (PyVal.pyList (a :: b :: r)) →
        p1.line_style = some a ∧ p2.line_style = some b)) ∧
      ((∀ a b r, p.line_width = some (PyVal.pyList (a :: b :: r)) →
        p1.line_width = some a ∧ p2.line_width = some b)) ∧
      ((∀ a b r, p.color = some (PyVal.pyList (a :: b :: r)) →
        p1.color = some a ∧ p2.color = some b)) ∧
      ((∀ a b r, p.alpha = some (PyVal.pyList (a :: b :: r)) →
        p1.alpha = some a ∧ p2.alpha = some b)) ∧
      ((∀ a b r, p.marker = some (PyVal.pyList (a :: b :: r)) →
        p1.marker = some a ∧ p2.marker = some b)) ∧
      ((∀ a b r, p.marker_size = some (PyVal.pyList (a :: b :: r)) →
        p1.marker_size = some a ∧ p2.marker_size = some b)) ∧
      ((∀ a b r, p.marker_edge_color = some (PyVal.pyList (a :: b :: r)) →
        p1.marker_edge_color = some a ∧ p2.marker_edge_color = some b)) ∧
      ((∀ a b r, p.marker_face_color = some (PyVal.pyList (a :: b :: r)) →
        p1.marker_face_color = some a ∧ p2.marker_face_color = some b)) ∧
      ((∀ a b r, p.marker_edge_width = some (PyVal.pyList (a :: b :: r)) →
        p1.marker_edge_width = some a ∧ p2.marker_edge_width = some b)) ∧
      ((∀ a b r, p.capsize = some (PyVal.pyList (a :: b :: r)) →
        p1.capsize = some a ∧ p2.capsize = some b)) ∧
      ((∀ a b r, p.elinewidth = some (PyVal.pyList (a :: b :: r)) →
        p1.elinewidth = some a ∧ p2.elinewidth = some b)) ∧
      ((∀ a b r, p.ecolor = some (PyVal.pyList (a :: b :: r)) →
        p1.ecolor = some a ∧ p2.ecolor = some b)) ∧
      ((∀ a b r, p.capthick = some (PyVal.pyList (a :: b :: r)) →
        p1.capthick = some a ∧ p2.capthick = some b))) ∧
    (∀ p : LinePlot, (∃ kv ∈ p.get_dict, isIntVal kv.2 = true) →
      ∃ e, split_dictionary_line p = .error e) := by
  refine ⟨?_, ?_, ?_, ?_⟩
  · intro p h
    have h2 : ∀ kv ∈ p.get_dict, ∃ a b r, kv.2 = PyVal.pyList (a :: b :: r) :=
      fun kv hm => (isPair2_iff kv.2).mp (h kv hm)
    have hs := splitPairs_of_pairs p.get_dict h2
    refine ⟨LinePlot.populate (p.get_dict.map (fun kv => (kv.1, pairFst kv.2))),
      LinePlot.populate (p.get_dict.map (fun kv => (kv.1, pairSnd kv.2))),
      ?_, ?_, ?_, ?_, ?_, ?_, ?_, ?_, ?_, ?_⟩
    · simp [split_dictionary_line, hs, bind, Except.bind]
    · intro a b r hf
      refine ⟨?_, ?_⟩
      · rw [LinePlot.line_popmap_line_style]; simp [hf, pairFst]
      · rw [LinePlot.line_popmap_line_style]; simp [hf, pairSnd]
    · intro a b r hf
      refine ⟨?_, ?_⟩
      · rw [LinePlot.line_popmap_line_width]; simp [hf, pairFst]
      · rw [LinePlot.line_popmap_line_width]; simp [hf, pairSnd]
    · intro a b r hf
      refine ⟨?_, ?_⟩
      · rw [LinePlot.line_popmap_color]; simp [hf, pairFst]
      · rw [LinePlot.line_popmap_color]; simp [hf, pairSnd]
    · intro a b r hf
      refine ⟨?_, ?_⟩
      · rw [LinePlot.line_popmap_alpha]; simp [hf, pairFst]
      · rw [LinePlot.line_popmap_alpha]; simp [hf, pairSnd]
    · intro a b r hf
      refine ⟨?_, ?_⟩
      · rw [LinePlot.line_popmap_marker]; simp [hf, pairFst]
      · rw [LinePlot.line_popmap_marker]; simp [hf, pairSnd]
    · intro a b r hf
      refine ⟨?_, ?_⟩
      · rw [LinePlot.line_popmap_marker_size]; simp [hf, pairFst]
      · rw [LinePlot.line_popmap_marker_size]; simp [hf, pairSnd]
    · intro a b r hf
      refine ⟨?_, ?_⟩
      · rw [LinePlot.line_popmap_marker_edge_color]; simp [hf, pairFst]
      · rw [LinePlot.line_popmap_marker_edge_color]; simp [hf, pairSnd]
    · intro a b r hf
      refine ⟨?_, ?_⟩
      · rw [LinePlot.line_popmap_marker_face_color]; simp [hf, pairFst]
      · rw [LinePlot.line_popmap_marker_face_color]; simp [hf, pairSnd]
    · intro a b r hf
      refine ⟨?_, ?_⟩
      · rw [LinePlot.line_popmap_marker_edge_width]; simp [hf, pairFst]
      · rw [LinePlot.line_popmap_marker_edge_width]; simp [hf, pairSnd]
  · intro p h
    have h2 : ∀ kv ∈ p.get_dict, ∃ a b r, kv.2 = PyVal.pyList (a :: b :: r) :=
      fun kv hm => (isPair2_iff kv.2).mp (h kv hm)
    have hs := splitPairs_of_pairs p.get_dict h2
    refine ⟨ScatterPlot.populate (p.get_dict.map (fun kv => (kv.1, pairFst kv.2))),
      ScatterPlot.populate (p.get_dict.map (fun kv => (kv.1, pairSnd kv.2))),
      ?_, ?_, ?_, ?_, ?_, ?_, ?_⟩
    · simp [split_dictionary_scatter, hs, bind, Except.bind]
    · intro a b r hf
      refine ⟨?_, ?_⟩
      · rw [ScatterPlot.scatter_popmap_color]; simp [hf, pairFst]
      · rw [ScatterPlot.scatter_popmap_color]; simp [hf, pairSnd]
    · intro a b r hf
      refine ⟨?_, ?_⟩
      · rw [ScatterPlot.scatter_popmap_alpha]; simp [hf, pairFst]
      · rw [ScatterPlot.scatter_popmap_alpha]; simp [hf, pairSnd]
    · intro a b r hf
      refine ⟨?_, ?_⟩
      · rw [ScatterPlot.scatter_popmap_marker]; simp [hf, pairFst]
      · rw [ScatterPlot.scatter_popmap_marker]; simp [hf, pairSnd]
    · intro a b r hf
      refine ⟨?_, ?_⟩
      · rw [ScatterPlot.scatter_popmap_size]; simp [hf, pairFst]
      · rw [ScatterPlot.scatter_popmap_size]; simp [hf, pairSnd]
    · intro a b r hf
      refine ⟨?_, ?_⟩
      · rw [ScatterPlot.scatter_popmap_cmap]; simp [hf, pairFst]
      · rw [ScatterPlot.scatter_popmap_cmap]; simp [hf, pairSnd]
    · intro a b r hf
      refine ⟨?_, ?_⟩
      · rw [ScatterPlot.scatter_popmap_face_color]; simp [hf, pairFst]
      · rw [ScatterPlot.scatter_popmap_face_color]; simp [hf, pairSnd]
  · intro p h
    have h2 : ∀ kv ∈ p.get_dict, ∃ a b r, kv.2 = PyVal.pyList (a :: b :: r) :=
      fun kv hm => (isPair2_iff kv.2).mp (h kv hm)
    have hs := splitPairs_of_pairs p.get_dict h2
    refine ⟨ErrorPlot.populate (p.get_dict.map (fun kv => (kv.1, pairFst kv.2))),
      ErrorPlot.populate (p.get_dict.map (fun kv => (kv.1, pairSnd kv.2))),
      ?_, ?_, ?_, ?_, ?_, ?_, ?_, ?_, ?_, ?_, ?_, ?_, ?_, ?_⟩
    · simp [split_dictionary_error, hs, bind, Except.bind]
    · intro a b r hf
      refine ⟨?_, ?_⟩
      · rw [ErrorPlot.error_popmap_line_style]; simp [hf, pairFst]
      · rw [ErrorPlot.error_popmap_line_style]; simp [hf, pairSnd]
    · intro a b r hf
      refine ⟨?_, ?_⟩
      · rw [ErrorPlot.error_popmap_line_width]; simp [hf, pairFst]
      · rw [ErrorPlot.error_popmap_line_width]; simp [hf, pairSnd]
    · intro a b r hf
      refine ⟨?_, ?_⟩
      · rw [ErrorPlot.error_popmap_color]; simp [hf, pairFst]
      · rw [ErrorPlot.error_popmap_color]; simp [hf, pairSnd]
    · intro a b r hf
      refine ⟨?_, ?_⟩
      · rw [ErrorPlot.error_popmap_alpha]; simp [hf, pairFst]
      · rw [ErrorPlot.error_popmap_alpha]; simp [hf, pairSnd]
    · intro a b r hf
      refine ⟨?_, ?_⟩
      · rw [ErrorPlot.error_popmap_marker]; simp [hf, pairFst]
      · rw [ErrorPlot.error_popmap_marker]; simp [hf, pairSnd]
    · intro a b r hf
      refine ⟨?_, ?_⟩
      · rw [ErrorPlot.error_popmap_marker_size]; simp [hf, pairFst]
      · rw [ErrorPlot.error_popmap_marker_size]; simp [hf, pairSnd]
    · intro a b r hf
      refine ⟨?_, ?_⟩
      · rw [ErrorPlot.error_popmap_marker_edge_color]; simp [hf, pairFst]
      · rw [ErrorPlot.error_popmap_marker_edge_color]; simp [hf, pairSnd]
    · intro a b r hf
      refine ⟨?_, ?_⟩
      · rw [ErrorPlot.error_popmap_marker_face_color]; simp [hf, pairFst]
      · rw [ErrorPlot.error_popmap_marker_face_color]; simp [hf, pairSnd]
    · intro a b r hf
      refine ⟨?_, ?_⟩
      · rw [ErrorPlot.error_popmap_marker_edge_width]; simp [hf, pairFst]
      · rw [ErrorPlot.error_popmap_marker_edge_width]; simp [hf, pairSnd]
    · intro a b r hf
      refine ⟨?_, ?_⟩
      · rw [ErrorPlot.error_popmap_capsize]; simp [hf, pairFst]
      · rw [ErrorPlot.error_popmap_capsize]; simp [hf, pairSnd]
    · intro a b r hf
      refine ⟨?_, ?_⟩
      · rw [ErrorPlot.error_popmap_elinewidth]; simp [hf, pairFst]
      · rw [ErrorPlot.error_popmap_elinewidth]; simp [hf, pairSnd]
    · intro a b r hf
      refine ⟨?_, ?_⟩
      · rw [ErrorPlot.error_popmap_ecolor]; simp [hf, pairFst]
      · rw [ErrorPlot.error_popmap_ecolor]; simp [hf, pairSnd]
    · intro a b r hf
      refine ⟨?_, ?_⟩
      · rw [ErrorPlot.error_popmap_capthick]; simp [hf, pairFst]
      · rw [ErrorPlot.error_popmap_capthick]; simp [hf, pairSnd]
  · intro p h
    obtain ⟨kv, hm, hi⟩ := h
    obtain ⟨n, hn⟩ := (isIntVal_iff kv.2).mp hi
    obtain ⟨e, he⟩ := splitPairs_error_of_int p.get_dict ⟨kv, hm, n, hn⟩
    exact ⟨e, by simp [split_dictionary_line, he, bind, Except.bind]⟩

/-- Counterexample to C5 as stated: `LinePlot(line_width=2,
color=["red","blue"])` has the scalar `2` in a present field; the claim
says a scalar field is "not divided further", but `split_dictionary`
fails with a `TypeError` from `values[:2]` on the int (and no
`ShapeError` exists in the code). -/
theorem claimC5_counterexample :
    split_dictionary_line lineScalarSet =
      .error "TypeError: 'int' object is not subscriptable" := rfl

/-- Witness for amended C5: a concrete `LinePlot` whose present fields
are two-element lists splits into the expected two instances. -/
theorem claimC5_amended_witness :
    ∃ p1 p2, split_dictionary_line linePairSet = .ok (p1, p2) ∧
      p1.line_style = some (.pyStr "-") ∧ p2.line_style = some (.pyStr "--") ∧
      p1.color = some (.pyStr "red") ∧ p2.color = some (.pyStr "blue") := by
  obtain ⟨p1, p2, hok, hf⟩ := claimC5_amended_split.1 linePairSet (by decide)
  refine ⟨p1, p2, hok, ?_, ?_, ?_, ?_⟩
  · exact (hf.1 (.pyStr "-") (.pyStr "--") [] rfl).1
  · exact (hf.1 (.pyStr "-") (.pyStr "--") [] rfl).2
  · exact (hf.2.2.1 (.pyStr "red") (.pyStr "blue") [] rfl).1
  · exact (hf.2.2.1 (.pyStr "red") (.pyStr "blue") [] rfl).2

/-- Amended C6: in the `n_plotter` style fan-out, a field whose value
is a (non-empty) sequence gives subplot `i` the entry
`value[i mod len(value)]` — cyclic reuse; but a field holding a
non-sequence scalar is not passed through unchanged: the unconditional
`value[c % len(value)]` raises a `TypeError` on it. -/
theorem claimC6_amended_grid :
    (∀ (items : List (String × PyVal)) (K c : Nat), c < K →
      (∀ kv ∈ items, isNonemptyList kv.2 = true) →
      n_plotter_main_dict items c =
        .ok (items.map (fun kv => (kv.1, listCycle kv.2 c)))) ∧
    (∀ (items : List (String × PyVal)) (c : Nat),
      (∃ kv ∈ items, isIntVal kv.2 = true) →
      ∃ e, n_plotter_main_dict items c = .error e) := by
  constructor
  · intro items K c _ h
    exact n_plotter_main_dict_of_lists items c
      (fun kv hm => (isNonemptyList_iff kv.2).mp (h kv hm))
  · intro items c h
    obtain ⟨kv, hm, hi⟩ := h
    obtain ⟨n, hn⟩ := (isIntVal_iff kv.2).mp hi
    exact n_plotter_main_dict_error_of_int items c ⟨kv, hm, n, hn⟩

/-- Counterexample to C6 as stated: a scalar style value
(`line_width = 2`) is not assigned unchanged to subplot 0 — the code
raises a `TypeError` from `len(2)`. -/
theorem claimC6_counterexample :
    n_plotter_main_dict [("lw", PyVal.pyInt 2)] 0 =
      .error "TypeError: object of type 'int' has no len()" ∧
    n_plotter_main_dict [("lw", PyVal.pyInt 2)] 0 ≠ .ok [("lw", PyVal.pyInt 2)] := by
  refine ⟨rfl, fun h => ?_⟩
  simp [n_plotter_main_dict, pyLen, bind, Except.bind] at h

/-- Witness for amended C6, matching the spec's cycling example: a
2-value field over 4 subplots gives subplot 2 `values[0]` again. -/
theorem claimC6_amended_witness :
    n_plotter_main_dict [("lw", PyVal.pyList [.pyInt 10, .pyInt 20])] 2 =
      .ok [("lw", PyVal.pyInt 10)] := by
  have h := claimC6_amended_grid.1 [("lw", PyVal.pyList [.pyInt 10, .pyInt 20])] 4 2
    (by decide) (by decide)
  simpa [listCycle] using h

/-- Counterexample to C7 as stated: in `plot_with_dual_axes` the
validation call does not run before label resolution — the source calls
`dual_axes_label_management` first and `dual_axes_data_validation`
second, as the emitted trace of a concrete request shows. -/
theorem claimC7_counterexample :
    (plot_with_dual_axes [1] [1] none none none none none false true none none []).1 =
      [PlotEvent.resolveLabels, PlotEvent.validate, PlotEvent.drawSeries 1] ∧
    ¬ occursBefore PlotEvent.validate PlotEvent.resolveLabels
        (plot_with_dual_axes [1] [1] none none none none none false true none none []).1 := by
  refine ⟨rfl, by decide⟩

/-- Amended C7: validation is a pure check that runs after label
resolution but before any drawing call: every trace starts with the
label-resolution event followed by the validation event; when
validation fails the call stops right there with the validation error;
and a draw event in the trace implies validation succeeded, so a
request that fails validation never produces any draw call. -/
theorem claimC7_amended_ordering (x1 y1 : List Int) (x2 y2 : Option (List Int))
    (l1 l2 l3 : Option String) (twin auto : Bool)
    (al : Option (List (Option String))) (t : Option String)
    (items : List (String × PyVal)) :
    ((plot_with_dual_axes x1 y1 x2 y2 l1 l2 l3 twin auto al t items).1.take 2 =
      [PlotEvent.resolveLabels, PlotEvent.validate]) ∧
    (∀ e, dual_axes_data_validation x1 x2 y1 y2 twin
        (dual_axes_label_management l1 l2 l3 auto al t twin).axisLabels = .error e →
      plot_with_dual_axes x1 y1 x2 y2 l1 l2 l3 twin auto al t items =
        ([PlotEvent.resolveLabels, PlotEvent.validate], some e)) ∧
    (∀ n, PlotEvent.drawSeries n ∈
        (plot_with_dual_axes x1 y1 x2 y2 l1 l2 l3 twin auto al t items).1 →
      dual_axes_data_validation x1 x2 y1 y2 twin
        (dual_axes_label_management l1 l2 l3 auto al t twin).axisLabels = .ok ()) := by
  unfold plot_with_dual_axes
  cases hv : dual_axes_data_validation x1 x2 y1 y2 twin
      (dual_axes_label_management l1 l2 l3 auto al t twin).axisLabels with
  | error e =>
      refine ⟨rfl, ?_, ?_⟩
      · intro e' he'
        cases he'
        rfl
      · intro n hmem
        simp at hmem
  | ok u =>
      cases u
      refine ⟨?_, ?_, ?_⟩
      · cases hd : evalDict1 items with
        | error e => rfl
        | ok d1 =>
            cases twin with
            | true =>
                cases y2 with
                | none => rfl
                | some w =>
                    cases hd2 : evalDict2 items with
                    | error e => rfl
                    | ok d2 => rfl
            | false =>
                cases x2 with
                | none => rfl
                | some w =>
                    cases hd2 : evalDict2 items with
                    | error e => rfl
                    | ok d2 => rfl
      · intro e' he'
        exact Except.noConfusion he'
      · intro n hmem
        rfl

/-- Witness for amended C7: a request with an empty primary x-series
stops at validation — the trace is exactly resolve-then-validate, no
draw event, and the validation error is surfaced. -/
theorem claimC7_amended_witness :
    plot_with_dual_axes [] [1] none none none none none true false none none [] =
      ([PlotEvent.resolveLabels, PlotEvent.validate],
        some "Primary x or y data is empty. Please provide valid data.") :=
  (claimC7_amended_ordering [] [1] none none none none none true false none none []).2.1
    "Primary x or y data is empty. Please provide valid data." rfl

/-- Amended C9: two instances of the same variant are equal under
`__eq__` if and only if every canonical field matches, and equal
instances have identical hash contents; hash contents agree if and only
if every field matches after the hash's list→tuple conversion — so
changing one field always breaks equality, and breaks hash agreement
except when it merely replaces a list by the tuple of the same
elements. -/
theorem claimC9_amended_eq_hash :
    (∀ p q : LinePlot,
      (p.eqPy q ↔ (p.line_style = q.line_style ∧ p.line_width = q.line_width ∧
        p.color = q.color ∧ p.alpha = q.alpha ∧ p.marker = q.marker ∧
        p.marker_size = q.marker_size ∧ p.marker_edge_color = q.marker_edge_color ∧
        p.marker_face_color = q.marker_face_color ∧
        p.marker_edge_width = q.marker_edge_width)) ∧
      (p.eqPy q → p.hashContent = q.hashContent) ∧
      (p.hashContent = q.hashContent ↔ (hashVal p.line_style = hashVal q.line_style ∧
        hashVal p.line_width = hashVal q.line_width ∧ hashVal p.color = hashVal q.color ∧
        hashVal p.alpha = hashVal q.alpha ∧ hashVal p.marker = hashVal q.marker ∧
        hashVal p.marker_size = hashVal q.marker_size ∧
        hashVal p.marker_edge_color = hashVal q.marker_edge_color ∧
        hashVal p.marker_face_color = hashVal q.marker_face_color ∧
        hashVal p.marker_edge_width = hashVal q.marker_edge_width))) ∧
    (∀ p q : ScatterPlot,
      (p.eqPy q ↔ (p.color = q.color ∧ p.alpha = q.alpha ∧ p.marker = q.marker ∧
        p.size = q.size ∧ p.cmap = q.cmap ∧ p.face_color = q.face_color)) ∧
      (p.eqPy q → p.hashContent = q.hashContent) ∧
      (p.hashContent = q.hashContent ↔ (hashVal p.color = hashVal q.color ∧
        hashVal p.alpha = hashVal q.alpha ∧ hashVal p.marker = hashVal q.marker ∧
        hashVal p.size = hashVal q.size ∧ hashVal p.cmap = hashVal q.cmap ∧
        hashVal p.face_color = hashVal q.face_color))) ∧
    (∀ p q : ErrorPlot,
      (p.eqPy q ↔ (p.line_style = q.line_style ∧ p.line_width = q.line_width ∧
        p.color = q.color ∧ p.alpha = q.alpha ∧ p.marker = q.marker ∧
        p.marker_size = q.marker_size ∧ p.marker_edge_color = q.marker_edge_color ∧
        p.marker_face_color = q.marker_face_color ∧
        p.marker_edge_width = q.marker_edge_width ∧ p.capsize = q.capsize ∧
        p.elinewidth = q.elinewidth ∧ p.ecolor = q.ecolor ∧ p.capthick = q.capthick)) ∧
      (p.eqPy q → p.hashContent = q.hashContent) ∧
      (p.hashContent = q.hashContent ↔ (hashVal p.line_style = hashVal q.line_style ∧
        hashVal p.line_width = hashVal q.line_width ∧ hashVal p.color = hashVal q.color ∧
        hashVal p.alpha = hashVal q.alpha ∧ hashVal p.marker = hashVal q.marker ∧
        hashVal p.marker_size = hashVal q.marker_size ∧
        hashVal p.marker_edge_color = hashVal q.marker_edge_color ∧
        hashVal p.marker_face_color = hashVal q.marker_face_color ∧
        hashVal p.marker_edge_width = hashVal q.marker_edge_width ∧
        hashVal p.capsize = hashVal q.capsize ∧
        hashVal p.elinewidth = hashVal q.elinewidth ∧
        hashVal p.ecolor = hashVal q.ecolor ∧
        hashVal p.capthick = hashVal q.capthick))) := by
  refine ⟨fun p q => ⟨?_, ?_, ?_⟩, fun p q => ⟨?_, ?_, ?_⟩, fun p q => ⟨?_, ?_, ?_⟩⟩
  · unfold LinePlot.eqPy
    rw [LinePlot.line_to_dict_eval, LinePlot.line_to_dict_eval]
    constructor
    · intro h; simp at h; tauto
    · intro h; simp; tauto
  · intro h
    unfold LinePlot.eqPy at h
    simp [LinePlot.hashContent, h]
  · rw [LinePlot.line_hashContent_eval, LinePlot.line_hashContent_eval]
    constructor
    · intro h; simp at h; tauto
    · intro h; simp; tauto
  · unfold ScatterPlot.eqPy
    rw [ScatterPlot.scatter_to_dict_eval, ScatterPlot.scatter_to_dict_eval]
    constructor
    · intro h; simp at h; tauto
    · intro h; simp; tauto
  · intro h
    unfold ScatterPlot.eqPy at h
    simp [ScatterPlot.hashContent, h]
  · rw [ScatterPlot.scatter_hashContent_eval, ScatterPlot.scatter_hashContent_eval]
    constructor
    · intro h; simp at h; tauto
    · intro h; simp; tauto
  · unfold ErrorPlot.eqPy
    rw [ErrorPlot.error_to_dict_eval, ErrorPlot.error_to_dict_eval]
    constructor
    · intro h; simp at h; tauto
    · intro h; simp; tauto
  · intro h
    unfold ErrorPlot.eqPy at h
    simp [ErrorPlot.hashContent, h]
  · rw [ErrorPlot.error_hashContent_eval, ErrorPlot.error_hashContent_eval]
    constructor
    · intro h; simp at h; tauto
    · intro h; simp; tauto

/-- Counterexample to C9 as stated: changing `line_style` from the list
`[1, 2]` to the tuple `(1, 2)` breaks equality but NOT hash agreement —
`__hash__` converts lists to tuples before hashing, so the two unequal
instances hash identically. -/
theorem claimC9_counterexample :
    ¬ lineListVal.eqPy lineTupleVal ∧
    lineListVal.hashContent = lineTupleVal.hashContent := by
  constructor
  · decide
  · rw [LinePlot.line_hashContent_eval, LinePlot.line_hashContent_eval]
    rfl

/-- Witness for amended C9: two instances built from the same canonical
content in different construction orders are equal and hash-identical. -/
theorem claimC9_amended_witness :
    lineBuiltA.eqPy lineBuiltB ∧ lineBuiltA.hashContent = lineBuiltB.hashContent :=
  ⟨by decide, (claimC9_amended_eq_hash.1 lineBuiltA lineBuiltB).2.1 (by decide)⟩

/-- Claim C10: with `auto_label` true, `n_plotter` ignores every
caller-supplied label: the result equals the all-unset call (labels are
unconditionally overwritten), and on a 2×2 grid the templated values
are x-labels `X$_{i+1}$`, y-labels `Y$_{i+1}$`, data labels
`X$_{i+1}$ vs Y$_{i+1}$`, subplot titles `Subplot i` (from 0) and
figure title `4 Plotter` — in contrast to the dual-axes label policy,
which preserves supplied labels. -/
theorem claimC10_nplotter_autolabel :
    (∀ (n_rows n_cols : Nat) (xl yl dl : Option (List (Option String)))
        (pt : Option String) (st : Option (List (Option String))),
      n_plotter_label_management n_rows n_cols xl yl dl pt st true =
        n_plotter_label_management n_rows n_cols none none none none none true) ∧
    n_plotter_label_management 2 2 (some [some "custom"]) (some [some "y"])
        (some [some "d"]) (some "T") (some [some "S"]) true =
      { xLabels := [some "X$_1$", some "X$_2$", some "X$_3$", some "X$_4$"],
        yLabels := [some "Y$_1$", some "Y$_2$", some "Y$_3$", some "Y$_4$"],
        dataLabels := [some "X$_1$ vs Y$_1$", some "X$_2$ vs Y$_2$",
          some "X$_3$ vs Y$_3$", some "X$_4$ vs Y$_4$"],
        plotTitle := some "4 Plotter",
        subplotTitle := [some "Subplot 0", some "Subplot 1", some "Subplot 2",
          some "Subplot 3"] } := by
  refine ⟨fun n_rows n_cols xl yl dl pt st => rfl, by decide⟩
